import Mathlib

/-!
# Value transcoding core of the Couchbase Python client (`src/convert.c`)

A shallow embedding of `convert.c`: the primitive codecs (`encode_common`,
`decode_common`), the transcoder adapter (`do_call_tc`), the key codec
(`pycbc_tc_encode_key`, `pycbc_tc_decode_key`), the classifier
(`pycbc_tc_determine_format`) and the value codec (`pycbc_tc_encode_value`,
`pycbc_tc_decode_value`).

Modelling conventions.

* A `PyObject *` is a value of `PyObj`.  Pointer identity (`a == b` in C) is
  structural equality on `PyObj`; objects with identity semantics carry an
  explicit identifier (`PyObj.object`).
* A Python text object is `PyObj.unicode` when it is a sequence of Unicode
  scalar values (`String`), the domain on which UTF-8 is defined, and
  `PyObj.unicode_raw`, given by its code points, when it is not: a text
  holding a lone surrogate.
* An operation ends in a value, in a raised error, or in a crash of the
  process (`Res`).
* A byte buffer (`buf`, `nbuf`) is a `List Nat`; `nbuf` is its length.
* Every operation returns an `Out`: the ordered list of calls it made into
  foreign code (helpers, transcoder methods, the UTF-8 decoder, warnings)
  and either the produced value or the raised error.
* Allocation failures (`PyBytes_FromStringAndSize`, `PyTuple_Pack` returning
  `NULL` for lack of memory) are not modelled.
-/

namespace Pycbc

/-! ## Python objects -/

mutual
/-- The runtime shapes of Python values that `convert.c` distinguishes. -/
inductive PyObj where
  /-- A text object (`unicode` on Python 2, `str` on Python 3). -/
  | unicode (s : String)
  /-- A text object that is not a sequence of scalar values, by its code
  points: a text holding a lone surrogate, such as the one-character text
  U+D800. -/
  | unicode_raw (cps : List Nat)
  /-- A byte string (`str` on Python 2, `bytes` on Python 3). -/
  | bytes (b : List Nat)
  /-- A mutable byte array. -/
  | bytearray (b : List Nat)
  /-- A list. -/
  | list (xs : PyList)
  /-- A tuple. -/
  | tuple (xs : PyList)
  /-- A dict, as the sequence of its items, each a 2-tuple (key, value). -/
  | dict (items : PyList)
  /-- The singletons `Py_True` and `Py_False`. -/
  | bool (b : Bool)
  /-- The singleton `Py_None`. -/
  | none
  /-- An integer object. -/
  | int (n : Int)
  /-- A float object, by its bit pattern. -/
  | float (bits : Nat)
  /-- Any other object: its identity and whether `PyObject_Hash` succeeds. -/
  | object (id : Nat) (hashable : Bool)
  deriving DecidableEq
/-- Sequences of Python objects. -/
inductive PyList where
  | nil
  | cons (hd : PyObj) (tl : PyList)
  deriving DecidableEq
end

/-- Type check `PyUnicode_Check`. -/
def PyUnicode_Check : PyObj → Bool
  | .unicode _ => true
  | .unicode_raw _ => true
  | _ => false

/-- Type check `PyBytes_Check`. -/
def PyBytes_Check : PyObj → Bool
  | .bytes _ => true
  | _ => false

/-- Type check `PyString_Check` (Python 2 only, where it is `PyBytes_Check`). -/
def PyString_Check (o : PyObj) : Bool := PyBytes_Check o

/-- Type check `PyByteArray_Check`. -/
def PyByteArray_Check : PyObj → Bool
  | .bytearray _ => true
  | _ => false

/-- Type check `PyList_Check`. -/
def PyList_Check : PyObj → Bool
  | .list _ => true
  | _ => false

/-- Type check `PyTuple_Check`. -/
def PyTuple_Check : PyObj → Bool
  | .tuple _ => true
  | _ => false

/-- Type check `PyDict_Check`. -/
def PyDict_Check : PyObj → Bool
  | .dict _ => true
  | _ => false

mutual
/-- Whether `PyObject_Hash` succeeds (returns something other than -1). -/
def PyObj.hashable : PyObj → Bool
  | .unicode _ => true
  | .unicode_raw _ => true
  | .bytes _ => true
  | .bytearray _ => false
  | .list _ => false
  | .tuple xs => xs.allHashable
  | .dict _ => false
  | .bool _ => true
  | .none => true
  | .int _ => true
  | .float _ => true
  | .object _ h => h
/-- Whether every member of a sequence is hashable. -/
def PyList.allHashable : PyList → Bool
  | .nil => true
  | .cons hd tl => hd.hashable && tl.allHashable
end

/-- The C call `PyBytes_AsStringAndSize(o, &buf, &len)`: the contents of a
byte string, failure (`-1`) on any other object. -/
def PyBytes_AsStringAndSize : PyObj → Option (List Nat)
  | .bytes b => some b
  | _ => Option.none

/-- Python equality (`==`) between a value of the Bytes domain and a byte
string: byte strings and byte arrays compare by content. -/
def PyObj.bytesEq : PyObj → PyObj → Bool
  | .bytes a, .bytes b => a == b
  | .bytearray a, .bytes b => a == b
  | .bytes a, .bytearray b => a == b
  | .bytearray a, .bytearray b => a == b
  | _, _ => false

/-! ## UTF-8 -/

/-- The UTF-8 code unit sequence of one code point. -/
def utf8EncodeCP (cp : Nat) : List Nat :=
  if cp < 0x80 then [cp]
  else if cp < 0x800 then [0xC0 + cp / 64, 0x80 + cp % 64]
  else if cp < 0x10000 then [0xE0 + cp / 4096, 0x80 + cp / 64 % 64, 0x80 + cp % 64]
  else [0xF0 + cp / 262144, 0x80 + cp / 4096 % 64, 0x80 + cp / 64 % 64, 0x80 + cp % 64]

/-- The UTF-8 encoding of a text: the bytes `PyUnicode_AsUTF8String` produces. -/
def utf8Encode (s : String) : List Nat :=
  s.data.flatMap (fun c => utf8EncodeCP c.toNat)

/-- A continuation byte `10xxxxxx`. -/
def isCont (b : Nat) : Bool := 0x80 ≤ b && b < 0xC0

/-- Strict decoding of the first code point of a buffer: shortest form only,
no surrogates, nothing above U+10FFFF.  Returns the code point and the rest. -/
def utf8DecodeOne : List Nat → Option (Nat × List Nat)
  | [] => none
  | b0 :: rest =>
    if b0 < 0x80 then some (b0, rest)
    else if 0xC2 ≤ b0 ∧ b0 < 0xE0 then
      match rest with
      | b1 :: r =>
        if isCont b1 then some ((b0 - 0xC0) * 64 + (b1 - 0x80), r) else none
      | _ => none
    else if 0xE0 ≤ b0 ∧ b0 < 0xF0 then
      match rest with
      | b1 :: b2 :: r =>
        let cp := (b0 - 0xE0) * 4096 + (b1 - 0x80) * 64 + (b2 - 0x80)
        if isCont b1 ∧ isCont b2 ∧ 0x800 ≤ cp ∧ ¬ (0xD800 ≤ cp ∧ cp < 0xE000) then
          some (cp, r)
        else none
      | _ => none
    else if 0xF0 ≤ b0 ∧ b0 < 0xF5 then
      match rest with
      | b1 :: b2 :: b3 :: r =>
        let cp := (b0 - 0xF0) * 262144 + (b1 - 0x80) * 4096 + (b2 - 0x80) * 64 + (b3 - 0x80)
        if isCont b1 ∧ isCont b2 ∧ isCont b3 ∧ 0x10000 ≤ cp ∧ cp < 0x110000 then
          some (cp, r)
        else none
      | _ => none
    else none

/-- Decoding loop: at most `fuel` code points. -/
def utf8DecodeAux : Nat → List Nat → Option (List Char)
  | _, [] => some []
  | 0, _ :: _ => none
  | fuel + 1, b :: bs =>
    match utf8DecodeOne (b :: bs) with
    | none => none
    | some (cp, rest) =>
      match utf8DecodeAux fuel rest with
      | none => none
      | some cs => some (Char.ofNat cp :: cs)

/-- Strict UTF-8 decoding of a whole buffer, as `PyUnicode_DecodeUTF8(buf,
nbuf, "strict")` does it: `none` when the buffer is not valid UTF-8.  Every
code point consumes at least one byte, so `length` code points suffice. -/
def utf8Decode (buf : List Nat) : Option String :=
  (utf8DecodeAux buf.length buf).map String.mk

/-- A buffer is valid UTF-8 when it is the encoding of some text. -/
def ValidUTF8 (buf : List Nat) : Prop := ∃ s : String, utf8Encode s = buf

/-- The encoding of a sequence of characters (`utf8Encode` on the character
list of a text). -/
def utf8EncodeChars (cs : List Char) : List Nat :=
  cs.flatMap (fun c => utf8EncodeCP c.toNat)

/-- Whether a code point is a surrogate (U+D800 to U+DFFF). -/
def isSurrogate (cp : Nat) : Bool := 0xD800 ≤ cp && cp < 0xE000

/-- The loop of the UTF-8 encoder of Python 2 over the code points of a text;
`pending` is a high surrogate read and not yet written.  A high surrogate
followed by a low surrogate is encoded as the code point the pair stands
for, every other code point, an isolated surrogate included, by its own
bytes. -/
def utf8EncodeLegacyAux : Option Nat → List Nat → List Nat
  | Option.none, [] => []
  | some hi, [] => utf8EncodeCP hi
  | Option.none, c :: rest =>
    if 0xD800 ≤ c ∧ c < 0xDC00 then utf8EncodeLegacyAux (some c) rest
    else utf8EncodeCP c ++ utf8EncodeLegacyAux Option.none rest
  | some hi, c :: rest =>
    if 0xDC00 ≤ c ∧ c < 0xE000 then
      utf8EncodeCP ((hi - 0xD800) * 1024 + (c - 0xDC00) + 0x10000) ++
        utf8EncodeLegacyAux Option.none rest
    else if 0xD800 ≤ c ∧ c < 0xDC00 then
      utf8EncodeCP hi ++ utf8EncodeLegacyAux (some c) rest
    else
      utf8EncodeCP hi ++ utf8EncodeCP c ++ utf8EncodeLegacyAux Option.none rest

/-- The UTF-8 encoder of Python 2 on a text given by its code points. -/
def utf8EncodeLegacy (cps : List Nat) : List Nat :=
  utf8EncodeLegacyAux Option.none cps

/-- The C call `PyUnicode_AsUTF8String`: a new byte string holding the UTF-8
encoding of a text object, or `none` for `NULL` with an exception pending.
On Python 3 the codec refuses a text that holds a surrogate
(`UnicodeEncodeError`); on Python 2 it encodes every text.  On an object that
is not a text the call fails. -/
def PyUnicode_AsUTF8String (major : Nat) : PyObj → Option PyObj
  | .unicode s => some (.bytes (utf8Encode s))
  | .unicode_raw cps =>
    if major = 2 then some (.bytes (utf8EncodeLegacy cps))
    else if cps.any isSurrogate then Option.none
    else some (.bytes (cps.flatMap utf8EncodeCP))
  | _ => Option.none

/-- The C call `PyUnicode_DecodeUTF8(buf, nbuf, "strict")`: `none` stands
for `NULL` with a `UnicodeDecodeError` pending. -/
def PyUnicode_DecodeUTF8 (buf : List Nat) : Option PyObj :=
  (utf8Decode buf).map PyObj.unicode

/-! ## Errors, foreign calls, configuration -/

/-- Error categories (`PYCBC_EXC_ARGUMENTS`, `PYCBC_EXC_ENCODING`,
`PYCBC_EXC_INTERNAL`). -/
inductive ExcKind where
  | ARGUMENTS
  | ENCODING
  | INTERNAL
  deriving DecidableEq

/-- The error a failed operation leaves pending. -/
inductive PyErr where
  /-- An error raised by the `PYCBC_EXC_WRAP` family: category, status code,
  static message and the two object slots `key` and `objextra`.  The nested
  cause, the exception pending at the time of the raise, is left out. -/
  | pycbc (kind : ExcKind) (err : Nat) (msg : String) (key : Option PyObj)
      (objextra : Option PyObj)
  /-- An exception raised by foreign Python code and left pending as it is. -/
  | python (exc : PyObj)
  deriving DecidableEq

/-- Modelled from the spec: the macro `PYCBC_EXC_WRAP_EX` of the header
`pycbc.h`, which `convert.c` includes.  Per the spec an error carries its
kind, a static message and the offending object; the macro fills the `key`
and `objextra` slots of the exception parameters. -/
def PYCBC_EXC_WRAP_EX (mode : ExcKind) (err : Nat) (msg : String)
    (key objextra : Option PyObj) : PyErr :=
  .pycbc mode err msg key objextra

/-- Modelled from the spec: `PYCBC_EXC_WRAP` of `pycbc.h`, no object attached. -/
def PYCBC_EXC_WRAP (mode : ExcKind) (err : Nat) (msg : String) : PyErr :=
  PYCBC_EXC_WRAP_EX mode err msg Option.none Option.none

/-- Modelled from the spec: `PYCBC_EXC_WRAP_OBJ` of `pycbc.h`, the object goes
to the `objextra` slot. -/
def PYCBC_EXC_WRAP_OBJ (mode : ExcKind) (err : Nat) (msg : String) (obj : PyObj) : PyErr :=
  PYCBC_EXC_WRAP_EX mode err msg Option.none (some obj)

/-- Modelled from the spec: `PYCBC_EXC_WRAP_KEY` of `pycbc.h`, the object goes
to the `key` slot. -/
def PYCBC_EXC_WRAP_KEY (mode : ExcKind) (err : Nat) (msg : String) (key : PyObj) : PyErr :=
  PYCBC_EXC_WRAP_EX mode err msg (some key) Option.none

/-- Modelled from the spec: `PYCBC_EXC_WRAP_VALUE` of `pycbc.h`, an alias of
`PYCBC_EXC_WRAP_KEY`. -/
def PYCBC_EXC_WRAP_VALUE (mode : ExcKind) (err : Nat) (msg : String) (v : PyObj) : PyErr :=
  PYCBC_EXC_WRAP_KEY mode err msg v

/-- The category of an error, when it was raised by the core. -/
def PyErr.kind? : PyErr → Option ExcKind
  | .pycbc k _ _ _ _ => some k
  | .python _ => Option.none

/-- The static message of an error, when it was raised by the core. -/
def PyErr.msg? : PyErr → Option String
  | .pycbc _ _ m _ _ => some m
  | .python _ => Option.none

/-- The objects attached to an error (its `key` and `objextra` slots). -/
def PyErr.attached : PyErr → List PyObj
  | .pycbc _ _ _ k x => k.toList ++ x.toList
  | .python _ => []

/-- The four injected serializer callables. -/
inductive HelperId where
  | json_encode
  | json_decode
  | pickle_encode
  | pickle_decode
  deriving DecidableEq

/-- A call into foreign code, or a warning, in the order it happens. -/
inductive Event where
  /-- A serializer helper was called with one argument. -/
  | helper (fn : HelperId) (arg : PyObj)
  /-- The strict UTF-8 decoder ran over a buffer. -/
  | decode_utf8 (buf : List Nat)
  /-- A transcoder method was called with an argument tuple. -/
  | tc_method (name : String) (args : List PyObj)
  /-- A warning went out through `PyErr_Warn(PyExc_UserWarning, msg)`. -/
  | warn (msg : String)
  deriving DecidableEq

/-- How an operation ends: with a value (the C function returns 0), with an
error pending (it returns -1), or with the process brought down by the
dereference of a null pointer. -/
inductive Res (α : Type) where
  | ok (a : α)
  | error (e : PyErr)
  | crash
  deriving DecidableEq

/-- What an operation did: the foreign calls it made, and how it ended. -/
structure Out (α : Type) where
  events : List Event
  result : Res α

/-- The global `pycbc_helpers`: callables and constants injected at start-up.
A callable returns a value or raises an exception object. -/
structure Helpers where
  json_encode : PyObj → Except PyObj PyObj
  json_decode : PyObj → Except PyObj PyObj
  pickle_encode : PyObj → Except PyObj PyObj
  pickle_decode : PyObj → Except PyObj PyObj
  fmt_utf8_flags : PyObj
  fmt_bytes_flags : PyObj
  fmt_json_flags : PyObj
  fmt_pickle_flags : PyObj
  fmt_auto : PyObj
  tcname_encode_key : String
  tcname_decode_key : String
  tcname_encode_value : String
  tcname_decode_value : String

/-- The build the code is compiled in.  The format constants `PYCBC_FMT_*`
come from the header `pycbc.h` and `convert.c` fixes none of their values, so
they are parameters here, as is the Python major version that the
preprocessor branches on. -/
structure Env where
  PY_MAJOR_VERSION : Nat
  PYCBC_FMT_JSON : Nat
  PYCBC_FMT_PICKLE : Nat
  PYCBC_FMT_BYTES : Nat
  PYCBC_FMT_UTF8 : Nat
  PYCBC_FMT_MASK : Nat
  pycbc_helpers : Helpers

/-- A user transcoder object (`conn->tc`): the object itself and its
attribute lookup, which yields a callable taking the argument tuple. -/
structure Transcoder where
  self : PyObj
  getattr : String → Option (List PyObj → Except PyObj PyObj)

/-- The fields of `pycbc_Connection` that the codec reads. -/
structure Connection where
  tc : Option Transcoder
  data_passthrough : Bool
  dfl_fmt : PyObj

/-- Modelled from the spec: `pycbc_get_u32`, declared in `pycbc.h` and defined
outside `convert.c`.  It coerces an object to a 32-bit unsigned integer; an
integer outside `0 .. 2^32-1` or a non-integer fails. -/
def pycbc_get_u32 : PyObj → Option Nat
  | .int n => if 0 ≤ n ∧ n < 4294967296 then some n.toNat else Option.none
  | _ => Option.none

/-- Modelled from the spec: `pycbc_IntFromUL`, declared in `pycbc.h`: the
integer object of an unsigned long. -/
def pycbc_IntFromUL (n : Nat) : PyObj := .int n

/-! ## `convert.c` -/

/-- Lines 25-41, `convert_to_bytesobj`: only called on an object that is not a
byte string.  A text object is UTF-8 encoded; when the object is no text, or
the encoder returns `NULL` (line 35 tests it), the outcome is an encoding
error with the object attached. -/
def convert_to_bytesobj (major : Nat) (o : PyObj) : Except PyErr PyObj :=
  match (if PyUnicode_Check o then PyUnicode_AsUTF8String major o else Option.none) with
  | some bytesobj => .ok bytesobj
  | Option.none =>
    .error (PYCBC_EXC_WRAP_OBJ .ENCODING 0 "Couldn't convert object to bytes" o)

/-- Lines 43-47: the conversion modes of `convert_to_string`. -/
inductive ConvertMode where
  | CONVERT_MODE_UTF8_FIRST
  | CONVERT_MODE_UTF8_ONLY
  | CONVERT_MODE_BYTES_ONLY
  deriving DecidableEq

/-- Lines 49-73, `convert_to_string`: build a text object or a byte string
from a buffer, depending on the mode. -/
def convert_to_string (buf : List Nat) (mode : ConvertMode) : Out PyObj :=
  if mode = .CONVERT_MODE_BYTES_ONLY then
    ⟨[], .ok (.bytes buf)⟩
  else
    match PyUnicode_DecodeUTF8 buf with
    | some ret => ⟨[.decode_utf8 buf], .ok ret⟩
    | Option.none =>
      if mode = .CONVERT_MODE_UTF8_ONLY then
        ⟨[.decode_utf8 buf],
          .error (PYCBC_EXC_WRAP .ENCODING 0 "Couldn't decode as UTF-8")⟩
      else
        ⟨[.decode_utf8 buf], .ok (.bytes buf)⟩

/-- What an encode hands to the transport: the owning object (`*o` on return)
and the bytes it exposes (`*buf` with `*nbuf` their number). -/
structure Encoded where
  owner : PyObj
  buf : List Nat
  deriving DecidableEq

/-- Lines 145-162 of `encode_common`: expose the buffer of `bytesobj`, a byte
array directly, anything else through `PyBytes_AsStringAndSize`. -/
def encode_common_buffer (bytesobj : PyObj) : Res Encoded :=
  match bytesobj with
  | .bytearray b => .ok ⟨bytesobj, b⟩
  | _ =>
    match PyBytes_AsStringAndSize bytesobj with
    | some b => .ok ⟨bytesobj, b⟩
    | Option.none => .error (PYCBC_EXC_WRAP .ENCODING 0 "Couldn't encode value")

/-- Lines 125-143 of `encode_common`: call the chosen helper on the value and
coerce what it returns to a byte string. -/
def encode_common_helper (major : Nat) (fn : HelperId)
    (helper : PyObj → Except PyObj PyObj) (o : PyObj) : Out Encoded :=
  match helper o with
  | .error _ =>
    ⟨[.helper fn o], .error (PYCBC_EXC_WRAP_OBJ .ENCODING 0 "Couldn't encode value" o)⟩
  | .ok bytesobj =>
    if PyBytes_Check bytesobj then
      ⟨[.helper fn o], encode_common_buffer bytesobj⟩
    else
      match convert_to_bytesobj major bytesobj with
      | .error e => ⟨[.helper fn o], .error e⟩
      | .ok converted => ⟨[.helper fn o], encode_common_buffer converted⟩

/-- Lines 75-163, `encode_common`: dispatch on the format bits of `flags`,
in the order UTF8, BYTES, PICKLE, JSON.  In the UTF8 branch the result of
`PyUnicode_AsUTF8String` (line 96) is not tested: when it is `NULL`, line 145
dereferences it in `PyByteArray_Check` and the process crashes. -/
def encode_common (E : Env) (o : PyObj) (flags : Nat) : Out Encoded :=
  if flags &&& E.PYCBC_FMT_UTF8 = E.PYCBC_FMT_UTF8 then
    if E.PY_MAJOR_VERSION = 2 ∧ PyString_Check o = true then
      ⟨[], encode_common_buffer o⟩
    else if PyUnicode_Check o then
      match PyUnicode_AsUTF8String E.PY_MAJOR_VERSION o with
      | some bytesobj => ⟨[], encode_common_buffer bytesobj⟩
      | Option.none => ⟨[], .crash⟩
    else
      ⟨[], .error (PYCBC_EXC_WRAP_OBJ .ENCODING 0 "Must be unicode or string" o)⟩
  else if flags &&& E.PYCBC_FMT_BYTES = E.PYCBC_FMT_BYTES then
    if PyBytes_Check o || PyByteArray_Check o then
      ⟨[], encode_common_buffer o⟩
    else
      ⟨[], .error (PYCBC_EXC_WRAP_OBJ .ENCODING 0 "Must be bytes or bytearray" o)⟩
  else if flags &&& E.PYCBC_FMT_PICKLE = E.PYCBC_FMT_PICKLE then
    encode_common_helper E.PY_MAJOR_VERSION .pickle_encode E.pycbc_helpers.pickle_encode o
  else if flags &&& E.PYCBC_FMT_JSON = E.PYCBC_FMT_JSON then
    encode_common_helper E.PY_MAJOR_VERSION .json_encode E.pycbc_helpers.json_encode o
  else
    ⟨[], .error (PYCBC_EXC_WRAP .ARGUMENTS 0 "Unrecognized format")⟩

/-- Lines 204-218 of `decode_common`: call the chosen converter on its first
argument; a raised exception becomes an encoding error carrying the raw
bytes. -/
def decode_common_helper (fn : HelperId) (converter : PyObj → Except PyObj PyObj)
    (buf : List Nat) (first : Out PyObj) : Out PyObj :=
  match first.result with
  | .crash => ⟨first.events, .crash⟩
  | .error e => ⟨first.events, .error e⟩
  | .ok first_arg =>
    match converter first_arg with
    | .ok decoded => ⟨first.events ++ [.helper fn first_arg], .ok decoded⟩
    | .error _ =>
      ⟨first.events ++ [.helper fn first_arg],
        .error (PYCBC_EXC_WRAP_OBJ .ENCODING 0 "Failed to decode bytes" (.bytes buf))⟩

/-- Lines 165-222, `decode_common`: dispatch on the format bits of `flags`,
in the order UTF8, BYTES, PICKLE, JSON; with no bit recognized, warn and
decode as bytes. -/
def decode_common (E : Env) (buf : List Nat) (flags : Nat) : Out PyObj :=
  if flags &&& E.PYCBC_FMT_UTF8 = E.PYCBC_FMT_UTF8 then
    convert_to_string buf .CONVERT_MODE_UTF8_ONLY
  else if flags &&& E.PYCBC_FMT_BYTES = E.PYCBC_FMT_BYTES then
    convert_to_string buf .CONVERT_MODE_BYTES_ONLY
  else if flags &&& E.PYCBC_FMT_PICKLE = E.PYCBC_FMT_PICKLE then
    decode_common_helper .pickle_decode E.pycbc_helpers.pickle_decode buf
      (convert_to_string buf .CONVERT_MODE_BYTES_ONLY)
  else if flags &&& E.PYCBC_FMT_JSON = E.PYCBC_FMT_JSON then
    decode_common_helper .json_decode E.pycbc_helpers.json_decode buf
      (convert_to_string buf .CONVERT_MODE_UTF8_ONLY)
  else
    let r := convert_to_string buf .CONVERT_MODE_BYTES_ONLY
    ⟨.warn "Unrecognized flags. Forcing bytes" :: r.events, r.result⟩

/-- Lines 224-231, `pycbc_tc_simple_encode`. -/
def pycbc_tc_simple_encode (E : Env) (p : PyObj) (flags : Nat) : Out Encoded :=
  encode_common E p flags

/-- Lines 233-240, `pycbc_tc_simple_decode`. -/
def pycbc_tc_simple_decode (E : Env) (buf : List Nat) (flags : Nat) : Out PyObj :=
  decode_common E buf flags

/-- Lines 242-247: the four transcoder operations. -/
inductive TcMode where
  | ENCODE_KEY
  | ENCODE_VALUE
  | DECODE_KEY
  | DECODE_VALUE
  deriving DecidableEq

/-- Lines 260-279 of `do_call_tc`: the method name looked up for a mode. -/
def strlookup (h : Helpers) : TcMode → String
  | .ENCODE_KEY => h.tcname_encode_key
  | .DECODE_KEY => h.tcname_decode_key
  | .ENCODE_VALUE => h.tcname_encode_value
  | .DECODE_VALUE => h.tcname_decode_value

/-- Lines 260-279 of `do_call_tc`: the argument tuple built for a mode;
`none` when `PyTuple_Pack` yields `NULL`. -/
def tc_args (obj : PyObj) (flags : Option PyObj) : TcMode → Option (List PyObj)
  | .ENCODE_KEY => some [obj]
  | .DECODE_KEY => some [obj]
  | .ENCODE_VALUE => flags.map (fun f => [obj, f])
  | .DECODE_VALUE => flags.map (fun f => [obj, f])

/-- Lines 248-301, `do_call_tc`: look the method up on the transcoder and call
it.  A missing method is wrapped as an encoding error; an exception raised by
the method itself is left pending as it is. -/
def do_call_tc (E : Env) (tc : Transcoder) (obj : PyObj) (flags : Option PyObj)
    (mode : TcMode) : Out PyObj :=
  match tc_args obj flags mode with
  | Option.none => ⟨[], .error (PYCBC_EXC_WRAP .INTERNAL 0 "Couldn't build arguments")⟩
  | some args =>
    match tc.getattr (strlookup E.pycbc_helpers mode) with
    | Option.none =>
      ⟨[], .error (PYCBC_EXC_WRAP_OBJ .ENCODING 0 "Couldn't find transcoder method" tc.self)⟩
    | some meth =>
      match meth args with
      | .ok result => ⟨[.tc_method (strlookup E.pycbc_helpers mode) args], .ok result⟩
      | .error exc => ⟨[.tc_method (strlookup E.pycbc_helpers mode) args], .error (.python exc)⟩

/-- Lines 304-355, `pycbc_tc_encode_key`. -/
def pycbc_tc_encode_key (E : Env) (conn : Connection) (key : PyObj) : Out Encoded :=
  match conn.tc with
  | Option.none => encode_common E key E.PYCBC_FMT_UTF8
  | some tc =>
    let r := do_call_tc E tc key Option.none .ENCODE_KEY
    match r.result with
    | .crash => ⟨r.events, .crash⟩
    | .error e => ⟨r.events, .error e⟩
    | .ok new_key =>
      match PyBytes_AsStringAndSize new_key with
      | Option.none =>
        ⟨r.events, .error (PYCBC_EXC_WRAP_KEY .ENCODING 0
          ("Couldn't convert encoded key to bytes. It is " ++
           "possible that the Transcoder.encode_key method " ++
           "returned an unexpected value") new_key)⟩
      | some b =>
        if b.length = 0 then
          ⟨r.events, .error (PYCBC_EXC_WRAP_KEY .ENCODING 0
            "Transcoder.encode_key returned an empty string" new_key)⟩
        else
          ⟨r.events, .ok ⟨new_key, b⟩⟩

/-- Lines 387-399 of `pycbc_tc_decode_key`: the decoded key must hash. -/
def decode_key_hash_check (events : List Event) (pobj : PyObj) : Out PyObj :=
  if pobj.hashable then
    ⟨events, .ok pobj⟩
  else
    ⟨events, .error (PYCBC_EXC_WRAP_KEY .ENCODING 0
      "Transcoder.decode_key must return a hashable object" pobj)⟩

/-- Lines 357-400, `pycbc_tc_decode_key`. -/
def pycbc_tc_decode_key (E : Env) (conn : Connection) (key : List Nat) : Out PyObj :=
  if conn.data_passthrough then
    decode_key_hash_check [] (.bytes key)
  else
    match conn.tc with
    | Option.none => decode_common E key E.PYCBC_FMT_UTF8
    | some tc =>
      let r := do_call_tc E tc (.bytes key) Option.none .DECODE_KEY
      match r.result with
      | .crash => ⟨r.events, .crash⟩
      | .error e => ⟨r.events, .error e⟩
      | .ok pobj => decode_key_hash_check r.events pobj

/-- Lines 402-422, `pycbc_tc_determine_format`. -/
def pycbc_tc_determine_format (h : Helpers) (value : PyObj) : PyObj :=
  if PyUnicode_Check value then
    h.fmt_utf8_flags
  else if PyBytes_Check value || PyByteArray_Check value then
    h.fmt_bytes_flags
  else if PyList_Check value || PyTuple_Check value || PyDict_Check value ||
      value == .bool true || value == .bool false || value == .none then
    h.fmt_json_flags
  else
    h.fmt_pickle_flags

/-- The three outputs of `pycbc_tc_encode_value`: the owning object, the bytes
and the flag word written to `*flags`. -/
structure EncodedValue where
  owner : PyObj
  buf : List Nat
  flags : Nat
  deriving DecidableEq

/-- Lines 424-523, `pycbc_tc_encode_value`.  `flag_v` is `none` for a `NULL`
hint. -/
def pycbc_tc_encode_value (E : Env) (conn : Connection) (value : PyObj)
    (flag_v : Option PyObj) : Out EncodedValue :=
  let flag_v := match flag_v with
    | Option.none => conn.dfl_fmt
    | some f => f
  match conn.tc with
  | Option.none =>
    let flag_v :=
      if flag_v = E.pycbc_helpers.fmt_auto then
        pycbc_tc_determine_format E.pycbc_helpers value
      else flag_v
    match pycbc_get_u32 flag_v with
    | Option.none =>
      ⟨[], .error (PYCBC_EXC_WRAP_OBJ .ARGUMENTS 0 "Bad value for flags" flag_v)⟩
    | some flags_stackval =>
      let flags := flags_stackval &&& E.PYCBC_FMT_MASK
      let r := encode_common E value flags_stackval
      match r.result with
      | .crash => ⟨r.events, .crash⟩
      | .error e => ⟨r.events, .error e⟩
      | .ok enc => ⟨r.events, .ok ⟨enc.owner, enc.buf, flags⟩⟩
  | some tc =>
    let r := do_call_tc E tc value (some flag_v) .ENCODE_VALUE
    match r.result with
    | .crash => ⟨r.events, .crash⟩
    | .error e => ⟨r.events, .error e⟩
    | .ok result_tuple =>
      match result_tuple with
      | .tuple (.cons new_value (.cons flags_obj .nil)) =>
        match pycbc_get_u32 flags_obj with
        | Option.none =>
          ⟨r.events, .error (PYCBC_EXC_WRAP_VALUE .ENCODING 0
            ("Transcoder.encode_value() returned a bad " ++
             "value for flags") value)⟩
        | some flags_stackval =>
          match PyBytes_AsStringAndSize new_value with
          | Option.none =>
            ⟨r.events, .error (PYCBC_EXC_WRAP_VALUE .ENCODING 0
              ("Value returned by Transcoder.encode_value() " ++
               "could not be converted to bytes") value)⟩
          | some b => ⟨r.events, .ok ⟨new_value, b, flags_stackval⟩⟩
      | _ =>
        ⟨r.events, .error (PYCBC_EXC_WRAP_EX .ENCODING 0
          "Expected return of (bytes, flags)" (some value) (some result_tuple))⟩

/-- Lines 525-573, `pycbc_tc_decode_value`. -/
def pycbc_tc_decode_value (E : Env) (conn : Connection) (value : List Nat)
    (flags : Nat) : Out PyObj :=
  match conn.data_passthrough, conn.tc with
  | false, Option.none => decode_common E value flags
  | true, _ => ⟨[], .ok (.bytes value)⟩
  | false, some tc =>
    do_call_tc E tc (.bytes value) (some (pycbc_IntFromUL flags)) .DECODE_VALUE

/-! ## Vocabulary of the properties -/

deriving instance DecidableEq for Except

instance {α : Type} [DecidableEq α] : DecidableEq (Out α) := fun a b =>
  match a, b with
  | ⟨e1, r1⟩, ⟨e2, r2⟩ =>
    if h : e1 = e2 ∧ r1 = r2 then isTrue (by rw [h.1, h.2])
    else isFalse (fun hab => h (by cases hab; exact ⟨rfl, rfl⟩))

/-- The four formats a stored flag word can name. -/
inductive Format where
  | Utf8
  | Bytes
  | Json
  | Pickle
  deriving DecidableEq, Fintype

/-- The constant `PYCBC_FMT_*` of a format. -/
def Env.fmt (E : Env) : Format → Nat
  | .Utf8 => E.PYCBC_FMT_UTF8
  | .Bytes => E.PYCBC_FMT_BYTES
  | .Json => E.PYCBC_FMT_JSON
  | .Pickle => E.PYCBC_FMT_PICKLE

/-- The branch `encode_common` takes for a flag word (the tests of lines 82,
99, 114 and 117, in that order); `none` is the "Unrecognized format" branch. -/
def encode_select (E : Env) (flags : Nat) : Option Format :=
  if flags &&& E.PYCBC_FMT_UTF8 = E.PYCBC_FMT_UTF8 then some .Utf8
  else if flags &&& E.PYCBC_FMT_BYTES = E.PYCBC_FMT_BYTES then some .Bytes
  else if flags &&& E.PYCBC_FMT_PICKLE = E.PYCBC_FMT_PICKLE then some .Pickle
  else if flags &&& E.PYCBC_FMT_JSON = E.PYCBC_FMT_JSON then some .Json
  else Option.none

/-- The body of each branch of `encode_common`, by the format it serves. -/
def encode_codec (E : Env) (o : PyObj) : Option Format → Out Encoded
  | some .Utf8 =>
    if E.PY_MAJOR_VERSION = 2 ∧ PyString_Check o = true then
      ⟨[], encode_common_buffer o⟩
    else if PyUnicode_Check o then
      match PyUnicode_AsUTF8String E.PY_MAJOR_VERSION o with
      | some bytesobj => ⟨[], encode_common_buffer bytesobj⟩
      | Option.none => ⟨[], .crash⟩
    else
      ⟨[], .error (PYCBC_EXC_WRAP_OBJ .ENCODING 0 "Must be unicode or string" o)⟩
  | some .Bytes =>
    if PyBytes_Check o || PyByteArray_Check o then
      ⟨[], encode_common_buffer o⟩
    else
      ⟨[], .error (PYCBC_EXC_WRAP_OBJ .ENCODING 0 "Must be bytes or bytearray" o)⟩
  | some .Pickle => encode_common_helper E.PY_MAJOR_VERSION .pickle_encode E.pycbc_helpers.pickle_encode o
  | some .Json => encode_common_helper E.PY_MAJOR_VERSION .json_encode E.pycbc_helpers.json_encode o
  | Option.none => ⟨[], .error (PYCBC_EXC_WRAP .ARGUMENTS 0 "Unrecognized format")⟩

/-- The runtime shape of a value: which kind of object it is, not what it
holds. -/
inductive Shape where
  | text
  | bytes
  | bytearray
  | list
  | tuple
  | dict
  | bool
  | null
  | int
  | float
  | other
  deriving DecidableEq

/-- The shape of a value. -/
def PyObj.shape : PyObj → Shape
  | .unicode _ => .text
  | .unicode_raw _ => .text
  | .bytes _ => .bytes
  | .bytearray _ => .bytearray
  | .list _ => .list
  | .tuple _ => .tuple
  | .dict _ => .dict
  | .bool _ => .bool
  | .none => .null
  | .int _ => .int
  | .float _ => .float
  | .object _ _ => .other

/-- The contents of a value of the Bytes domain (byte string or byte array). -/
def PyObj.byteContent : PyObj → Option (List Nat)
  | .bytes b => some b
  | .bytearray b => some b
  | _ => Option.none

/-- Every format constant lies inside `PYCBC_FMT_MASK`. -/
def Env.MaskCovers (E : Env) : Prop :=
  ∀ F : Format, E.fmt F &&& E.PYCBC_FMT_MASK = E.fmt F

/-- No format constant carries all the bits of a constant tested before it
in the dispatch order UTF8, BYTES, PICKLE, JSON. -/
def Env.Separated (E : Env) : Prop :=
  E.PYCBC_FMT_BYTES &&& E.PYCBC_FMT_UTF8 ≠ E.PYCBC_FMT_UTF8 ∧
  E.PYCBC_FMT_PICKLE &&& E.PYCBC_FMT_UTF8 ≠ E.PYCBC_FMT_UTF8 ∧
  E.PYCBC_FMT_PICKLE &&& E.PYCBC_FMT_BYTES ≠ E.PYCBC_FMT_BYTES ∧
  E.PYCBC_FMT_JSON &&& E.PYCBC_FMT_UTF8 ≠ E.PYCBC_FMT_UTF8 ∧
  E.PYCBC_FMT_JSON &&& E.PYCBC_FMT_BYTES ≠ E.PYCBC_FMT_BYTES ∧
  E.PYCBC_FMT_JSON &&& E.PYCBC_FMT_PICKLE ≠ E.PYCBC_FMT_PICKLE

/-- Every format constant is a 32-bit unsigned value. -/
def Env.Fits32 (E : Env) : Prop :=
  ∀ F : Format, E.fmt F < 4294967296

/-- The flag objects of `pycbc_helpers` are the integer objects of the format
constants. -/
def Env.HelperFlags (E : Env) : Prop :=
  E.pycbc_helpers.fmt_utf8_flags = .int E.PYCBC_FMT_UTF8 ∧
  E.pycbc_helpers.fmt_bytes_flags = .int E.PYCBC_FMT_BYTES ∧
  E.pycbc_helpers.fmt_json_flags = .int E.PYCBC_FMT_JSON ∧
  E.pycbc_helpers.fmt_pickle_flags = .int E.PYCBC_FMT_PICKLE

instance (E : Env) : Decidable E.MaskCovers := by
  unfold Env.MaskCovers; infer_instance

instance (E : Env) : Decidable E.Separated := by
  unfold Env.Separated; infer_instance

instance (E : Env) : Decidable E.Fits32 := by
  unfold Env.Fits32; infer_instance

instance (E : Env) : Decidable E.HelperFlags := by
  unfold Env.HelperFlags; infer_instance

/-! ## Sample configurations -/

/-- The JSON text of the mapping with the single item "a": 1. -/
def sampleJsonText : String := "\x7b\"a\": 1\x7d"

/-- The mapping with the single item "a": 1. -/
def sampleMapping : PyObj :=
  .dict (.cons (.tuple (.cons (.unicode "a") (.cons (.int 1) .nil))) .nil)

/-- A JSON encoder that knows two documents and raises on anything else. -/
def sampleJsonEncode (v : PyObj) : Except PyObj PyObj :=
  if v = .bool true then .ok (.unicode "true")
  else if v = sampleMapping then .ok (.unicode sampleJsonText)
  else .error (.object 900 true)

/-- The matching JSON decoder. -/
def sampleJsonDecode (t : PyObj) : Except PyObj PyObj :=
  if t = .unicode "true" then .ok (.bool true)
  else if t = .unicode sampleJsonText then .ok sampleMapping
  else .error (.object 901 true)

/-- An object-graph encoder that knows one object. -/
def samplePickleEncode (v : PyObj) : Except PyObj PyObj :=
  if v = .object 7 true then .ok (.bytes [0x80, 0x02, 0x07, 0x2E])
  else .error (.object 902 true)

/-- The matching object-graph decoder. -/
def samplePickleDecode (b : PyObj) : Except PyObj PyObj :=
  if b = .bytes [0x80, 0x02, 0x07, 0x2E] then .ok (.object 7 true)
  else .error (.object 903 true)

/-- Helpers whose flag objects are the integers of the given constants and
whose Auto sentinel is a plain object. -/
def sampleHelpers (json pickle bytes utf8 : Nat) : Helpers where
  json_encode := sampleJsonEncode
  json_decode := sampleJsonDecode
  pickle_encode := samplePickleEncode
  pickle_decode := samplePickleDecode
  fmt_utf8_flags := .int utf8
  fmt_bytes_flags := .int bytes
  fmt_json_flags := .int json
  fmt_pickle_flags := .int pickle
  fmt_auto := .object 1 true
  tcname_encode_key := "encode_key"
  tcname_decode_key := "decode_key"
  tcname_encode_value := "encode_value"
  tcname_decode_value := "decode_value"

/-- A Python 3 build with one bit per format: JSON 8, PICKLE 1, BYTES 2,
UTF8 4, mask 15. -/
def envBits : Env where
  PY_MAJOR_VERSION := 3
  PYCBC_FMT_JSON := 8
  PYCBC_FMT_PICKLE := 1
  PYCBC_FMT_BYTES := 2
  PYCBC_FMT_UTF8 := 4
  PYCBC_FMT_MASK := 15
  pycbc_helpers := sampleHelpers 8 1 2 4

/-- A Python 3 build in which JSON is the zero format: JSON 0, PICKLE 1,
BYTES 2, UTF8 4, mask 7. -/
def envZero : Env where
  PY_MAJOR_VERSION := 3
  PYCBC_FMT_JSON := 0
  PYCBC_FMT_PICKLE := 1
  PYCBC_FMT_BYTES := 2
  PYCBC_FMT_UTF8 := 4
  PYCBC_FMT_MASK := 7
  pycbc_helpers := sampleHelpers 0 1 2 4

/-- A transcoder all of whose methods raise. -/
def tcRaising : Transcoder where
  self := .object 40 true
  getattr := fun _ => some (fun _ => .error (.object 41 true))

/-- A transcoder whose `encode_value` returns three bytes with a flag word
that has high bits set, and whose `decode_value` returns the pair of its two
arguments. -/
def tcHighBits : Transcoder where
  self := .object 50 true
  getattr := fun name =>
    if name = "encode_value" then
      some (fun _ => .ok (.tuple (.cons (.bytes [1, 2, 3]) (.cons (.int 0xABCD0004) .nil))))
    else if name = "decode_value" then
      some (fun args =>
        match args with
        | [b, w] => .ok (.tuple (.cons b (.cons w .nil)))
        | _ => .error (.object 51 true))
    else Option.none

/-- A connection with a raising transcoder and passthrough on. -/
def connPassthrough : Connection where
  tc := some tcRaising
  data_passthrough := true
  dfl_fmt := .int 8

/-- A connection with the high-bits transcoder and passthrough off. -/
def connHighBits : Connection where
  tc := some tcHighBits
  data_passthrough := false
  dfl_fmt := .int 8

/-- A connection with no transcoder and passthrough off. -/
def connPlain : Connection where
  tc := Option.none
  data_passthrough := false
  dfl_fmt := .int 8

/-- The branch `decode_common` takes for a stored flag word (the tests of
lines 170, 176, 186 and 191, in that order); `none` is the "Unrecognized
flags" branch. -/
def decode_select (E : Env) (flags : Nat) : Option Format :=
  if flags &&& E.PYCBC_FMT_UTF8 = E.PYCBC_FMT_UTF8 then some .Utf8
  else if flags &&& E.PYCBC_FMT_BYTES = E.PYCBC_FMT_BYTES then some .Bytes
  else if flags &&& E.PYCBC_FMT_PICKLE = E.PYCBC_FMT_PICKLE then some .Pickle
  else if flags &&& E.PYCBC_FMT_JSON = E.PYCBC_FMT_JSON then some .Json
  else Option.none

/-- The body of each branch of `decode_common`, by the format it serves. -/
def decode_codec (E : Env) (buf : List Nat) : Option Format → Out PyObj
  | some .Utf8 => convert_to_string buf .CONVERT_MODE_UTF8_ONLY
  | some .Bytes => convert_to_string buf .CONVERT_MODE_BYTES_ONLY
  | some .Pickle =>
    decode_common_helper .pickle_decode E.pycbc_helpers.pickle_decode buf
      (convert_to_string buf .CONVERT_MODE_BYTES_ONLY)
  | some .Json =>
    decode_common_helper .json_decode E.pycbc_helpers.json_decode buf
      (convert_to_string buf .CONVERT_MODE_UTF8_ONLY)
  | Option.none =>
    ⟨.warn "Unrecognized flags. Forcing bytes" ::
        (convert_to_string buf .CONVERT_MODE_BYTES_ONLY).events,
      (convert_to_string buf .CONVERT_MODE_BYTES_ONLY).result⟩

/-- A flag word recognizes a format when it carries all the bits of the
format constant. -/
def Env.carries (E : Env) (flags : Nat) (F : Format) : Bool :=
  flags &&& E.fmt F == E.fmt F

/-- The precedence rule in words: of Utf8, then Bytes, then Pickle, then
Json, the first format whose bits the flag word carries. -/
def precedence_select (E : Env) (flags : Nat) : Option Format :=
  [Format.Utf8, Format.Bytes, Format.Pickle, Format.Json].find? (E.carries flags)

/-- Whether an event is a call of one of the serializer helpers. -/
def Event.isHelperCall : Event → Bool
  | .helper _ _ => true
  | _ => false

/-- Every format constant has at least one bit set. -/
def Env.NonzeroFormats (E : Env) : Prop :=
  ∀ F : Format, E.fmt F ≠ 0

instance (E : Env) : Decidable E.NonzeroFormats := by
  unfold Env.NonzeroFormats; infer_instance

/-- A transcoder for keys.  Its `encode_key` returns the byte 6B for the key
"k", an empty byte string for the key "", the text itself for the key "u" and
a byte array for the key "a", and raises on any other key.  Its `decode_key`
returns the text "k" for the byte 6B, a list for the byte 6C, and raises on
anything else. -/
def tcKeys : Transcoder where
  self := .object 60 true
  getattr := fun name =>
    if name = "encode_key" then
      some (fun args =>
        if args = [.unicode "k"] then .ok (.bytes [0x6B])
        else if args = [.unicode ""] then .ok (.bytes [])
        else if args = [.unicode "u"] then .ok (.unicode "u")
        else if args = [.unicode "a"] then .ok (.bytearray [0x61])
        else .error (.object 61 true))
    else if name = "decode_key" then
      some (fun args =>
        if args = [.bytes [0x6B]] then .ok (.unicode "k")
        else if args = [.bytes [0x6C]] then .ok (.list (.cons (.int 1) .nil))
        else .error (.object 62 true))
    else Option.none

/-- A connection with the key transcoder and passthrough off. -/
def connKeys : Connection where
  tc := some tcKeys
  data_passthrough := false
  dfl_fmt := .int 8
/-- A transcoder for values.  Its `encode_value` looks at the value only: for
the integers 0 to 5 it returns, in turn, a well-formed pair, a list of two
items, a triple, a pair with a negative flag word, a pair with the flag word
2^32, and a pair whose first item is a text; it raises on anything else. -/
def tcValues : Transcoder where
  self := .object 70 true
  getattr := fun name =>
    if name = "encode_value" then
      some (fun args =>
        match args with
        | [.int 0, _] => .ok (.tuple (.cons (.bytes [9]) (.cons (.int 7) .nil)))
        | [.int 1, _] => .ok (.list (.cons (.bytes [9]) (.cons (.int 7) .nil)))
        | [.int 2, _] =>
          .ok (.tuple (.cons (.bytes [9]) (.cons (.int 7) (.cons (.int 7) .nil))))
        | [.int 3, _] => .ok (.tuple (.cons (.bytes [9]) (.cons (.int (-1)) .nil)))
        | [.int 4, _] => .ok (.tuple (.cons (.bytes [9]) (.cons (.int 4294967296) .nil)))
        | [.int 5, _] => .ok (.tuple (.cons (.unicode "x") (.cons (.int 7) .nil)))
        | _ => .error (.object 71 true))
    else Option.none

/-- A connection with the value transcoder and passthrough off. -/
def connValues : Connection where
  tc := some tcValues
  data_passthrough := false
  dfl_fmt := .int 8

/-- A transcoder object that has none of the four methods. -/
def tcEmpty : Transcoder where
  self := .object 80 true
  getattr := fun _ => Option.none

/-- A connection with the raising transcoder and passthrough off. -/
def connRaising : Connection where
  tc := some tcRaising
  data_passthrough := false
  dfl_fmt := .int 8

/-- A connection with the method-less transcoder and passthrough off. -/
def connEmpty : Connection where
  tc := some tcEmpty
  data_passthrough := false
  dfl_fmt := .int 8

theorem utf8DecodeOne_encode (cp : Nat) (h : cp.isValidChar) (rest : List Nat) :
    utf8DecodeOne (utf8EncodeCP cp ++ rest) = some (cp, rest) := by
  unfold Nat.isValidChar at h
  unfold utf8EncodeCP
  split_ifs with h1 h2 h3
  · simp only [utf8DecodeOne, List.cons_append, List.nil_append, h1, if_true]
  · have a1 : ¬ (192 + cp / 64 < 128) := by omega
    have a2 : 194 ≤ 192 + cp / 64 ∧ 192 + cp / 64 < 224 := by omega
    have a3 : isCont (128 + cp % 64) = true := by simp [isCont]; omega
    have e : (192 + cp / 64 - 192) * 64 + (128 + cp % 64 - 128) = cp := by omega
    simp only [utf8DecodeOne, List.cons_append, List.nil_append, a1, a2, a3, e, if_true,
      if_false, and_self]
  · have a1 : ¬ (224 + cp / 4096 < 128) := by omega
    have a2 : ¬ (194 ≤ 224 + cp / 4096 ∧ 224 + cp / 4096 < 224) := by omega
    have a3 : 224 ≤ 224 + cp / 4096 ∧ 224 + cp / 4096 < 240 := by omega
    have e : (224 + cp / 4096 - 224) * 4096 + (128 + cp / 64 % 64 - 128) * 64
        + (128 + cp % 64 - 128) = cp := by omega
    have c1 : isCont (128 + cp / 64 % 64) = true := by simp [isCont]; omega
    have c2 : isCont (128 + cp % 64) = true := by simp [isCont]; omega
    have a4 : 2048 ≤ cp ∧ ¬ (55296 ≤ cp ∧ cp < 57344) := by omega
    simp only [utf8DecodeOne, List.cons_append, List.nil_append, a1, a2, a3, e, c1, c2, a4,
      if_true, if_false, and_self, not_false_eq_true]
  · have a1 : ¬ (240 + cp / 262144 < 128) := by omega
    have a2 : ¬ (194 ≤ 240 + cp / 262144 ∧ 240 + cp / 262144 < 224) := by omega
    have a3 : ¬ (224 ≤ 240 + cp / 262144 ∧ 240 + cp / 262144 < 240) := by omega
    have a5 : 240 ≤ 240 + cp / 262144 ∧ 240 + cp / 262144 < 245 := by omega
    have e : (240 + cp / 262144 - 240) * 262144 + (128 + cp / 4096 % 64 - 128) * 4096
        + (128 + cp / 64 % 64 - 128) * 64 + (128 + cp % 64 - 128) = cp := by omega
    have c0 : isCont (128 + cp / 4096 % 64) = true := by simp [isCont]; omega
    have c1 : isCont (128 + cp / 64 % 64) = true := by simp [isCont]; omega
    have c2 : isCont (128 + cp % 64) = true := by simp [isCont]; omega
    have a4 : 65536 ≤ cp ∧ cp < 1114112 := by omega
    simp only [utf8DecodeOne, List.cons_append, List.nil_append, a1, a2, a3, a5, e, c0, c1, c2,
      a4, if_true, if_false, and_self, not_false_eq_true]

theorem utf8DecodeOne_sound (bs : List Nat) (cp : Nat) (rest : List Nat)
    (h : utf8DecodeOne bs = some (cp, rest)) :
    cp.isValidChar ∧ bs = utf8EncodeCP cp ++ rest := by
  unfold Nat.isValidChar
  match bs, h with
  | b0 :: tl, h =>
    simp only [utf8DecodeOne] at h
    split_ifs at h with h1 h2 h3 h4
    · simp only [Option.some.injEq, Prod.mk.injEq] at h
      obtain ⟨rfl, rfl⟩ := h
      simp only [utf8EncodeCP, h1, if_true, List.cons_append, List.nil_append, and_true]
      omega
    · match tl, h with
      | b1 :: r, h =>
        simp only at h
        split_ifs at h with c1
        simp only [Option.some.injEq, Prod.mk.injEq] at h
        obtain ⟨rfl, rfl⟩ := h
        simp only [isCont, Bool.and_eq_true, decide_eq_true_eq] at c1
        have n1 : ¬ ((b0 - 192) * 64 + (b1 - 128) < 128) := by omega
        have n2 : (b0 - 192) * 64 + (b1 - 128) < 2048 := by omega
        have e0 : 192 + ((b0 - 192) * 64 + (b1 - 128)) / 64 = b0 := by omega
        have e1 : 128 + ((b0 - 192) * 64 + (b1 - 128)) % 64 = b1 := by omega
        simp only [utf8EncodeCP, n1, n2, e0, e1, if_true, if_false, List.cons_append,
          List.nil_append, and_true]
        omega
    · match tl, h with
      | b1 :: b2 :: r, h =>
        simp only at h
        split_ifs at h with c1
        simp only [Option.some.injEq, Prod.mk.injEq] at h
        obtain ⟨rfl, rfl⟩ := h
        simp only [isCont, Bool.and_eq_true, decide_eq_true_eq] at c1
        obtain ⟨c1, c2, c3, c4⟩ := c1
        have n1 : ¬ ((b0 - 224) * 4096 + (b1 - 128) * 64 + (b2 - 128) < 128) := by omega
        have n2 : ¬ ((b0 - 224) * 4096 + (b1 - 128) * 64 + (b2 - 128) < 2048) := by omega
        have n3 : (b0 - 224) * 4096 + (b1 - 128) * 64 + (b2 - 128) < 65536 := by omega
        have e0 : 224 + ((b0 - 224) * 4096 + (b1 - 128) * 64 + (b2 - 128)) / 4096 = b0 := by
          omega
        have e1 : 128 + ((b0 - 224) * 4096 + (b1 - 128) * 64 + (b2 - 128)) / 64 % 64 = b1 := by
          omega
        have e2 : 128 + ((b0 - 224) * 4096 + (b1 - 128) * 64 + (b2 - 128)) % 64 = b2 := by
          omega
        simp only [utf8EncodeCP, n1, n2, n3, e0, e1, e2, if_true, if_false, List.cons_append,
          List.nil_append, and_true]
        omega
    · match tl, h with
      | b1 :: b2 :: b3 :: r, h =>
        simp only at h
        split_ifs at h with c1
        simp only [Option.some.injEq, Prod.mk.injEq] at h
        obtain ⟨rfl, rfl⟩ := h
        simp only [isCont, Bool.and_eq_true, decide_eq_true_eq] at c1
        obtain ⟨c1, c2, c3, c4, c5⟩ := c1
        have n1 : ¬ ((b0 - 240) * 262144 + (b1 - 128) * 4096 + (b2 - 128) * 64 + (b3 - 128)
            < 128) := by omega
        have n2 : ¬ ((b0 - 240) * 262144 + (b1 - 128) * 4096 + (b2 - 128) * 64 + (b3 - 128)
            < 2048) := by omega
        have n3 : ¬ ((b0 - 240) * 262144 + (b1 - 128) * 4096 + (b2 - 128) * 64 + (b3 - 128)
            < 65536) := by omega
        have e0 : 240 + ((b0 - 240) * 262144 + (b1 - 128) * 4096 + (b2 - 128) * 64
            + (b3 - 128)) / 262144 = b0 := by omega
        have e1 : 128 + ((b0 - 240) * 262144 + (b1 - 128) * 4096 + (b2 - 128) * 64
            + (b3 - 128)) / 4096 % 64 = b1 := by omega
        have e2 : 128 + ((b0 - 240) * 262144 + (b1 - 128) * 4096 + (b2 - 128) * 64
            + (b3 - 128)) / 64 % 64 = b2 := by omega
        have e3 : 128 + ((b0 - 240) * 262144 + (b1 - 128) * 4096 + (b2 - 128) * 64
            + (b3 - 128)) % 64 = b3 := by omega
        simp only [utf8EncodeCP, n1, n2, n3, e0, e1, e2, e3, if_true, if_false,
          List.cons_append, List.nil_append, and_true]
        omega

theorem toNat_ofNat_of_valid (n : Nat) (h : n.isValidChar) : (Char.ofNat n).toNat = n := by
  simp [Char.ofNat, h, Char.ofNatAux, Char.toNat, UInt32.toNat]

theorem utf8EncodeCP_ne_nil (cp : Nat) : utf8EncodeCP cp ≠ [] := by
  unfold utf8EncodeCP
  split_ifs <;> exact List.cons_ne_nil _ _

theorem utf8DecodeAux_succ (fuel : Nat) (bs : List Nat) (hne : bs ≠ []) :
    utf8DecodeAux (fuel + 1) bs =
      match utf8DecodeOne bs with
      | none => none
      | some (cp, rest) =>
        match utf8DecodeAux fuel rest with
        | none => none
        | some cs => some (Char.ofNat cp :: cs) := by
  cases bs with
  | nil => exact absurd rfl hne
  | cons b bs => rfl

theorem utf8DecodeAux_encode (cs : List Char) :
    ∀ fuel, (utf8EncodeChars cs).length ≤ fuel →
      utf8DecodeAux fuel (utf8EncodeChars cs) = some cs := by
  induction cs with
  | nil => intro fuel _; cases fuel <;> rfl
  | cons c cs ih =>
    intro fuel hf
    have hcons : utf8EncodeChars (c :: cs) = utf8EncodeCP c.toNat ++ utf8EncodeChars cs := by
      simp [utf8EncodeChars]
    have hne : utf8EncodeCP c.toNat ++ utf8EncodeChars cs ≠ [] := by
      simp [utf8EncodeCP_ne_nil]
    have hlen : 1 ≤ (utf8EncodeCP c.toNat).length :=
      List.length_pos.mpr (utf8EncodeCP_ne_nil _)
    rw [hcons] at hf ⊢
    rw [List.length_append] at hf
    obtain ⟨f, rfl⟩ : ∃ f, fuel = f + 1 := ⟨fuel - 1, by omega⟩
    rw [utf8DecodeAux_succ f _ hne, utf8DecodeOne_encode c.toNat c.valid]
    simp only [ih f (by omega), Char.ofNat_toNat]

theorem utf8DecodeAux_sound : ∀ (fuel : Nat) (bs : List Nat) (cs : List Char),
    utf8DecodeAux fuel bs = some cs → utf8EncodeChars cs = bs := by
  intro fuel
  induction fuel with
  | zero =>
    intro bs cs h
    cases bs with
    | nil =>
      simp only [utf8DecodeAux, Option.some.injEq] at h
      subst h; rfl
    | cons b bs => simp [utf8DecodeAux] at h
  | succ f ih =>
    intro bs cs h
    cases bs with
    | nil =>
      simp only [utf8DecodeAux, Option.some.injEq] at h
      subst h; rfl
    | cons b bs =>
      rw [utf8DecodeAux_succ f _ (List.cons_ne_nil _ _)] at h
      cases hd : utf8DecodeOne (b :: bs) with
      | none => simp [hd] at h
      | some p =>
        obtain ⟨cp, rest⟩ := p
        simp only [hd] at h
        cases hr : utf8DecodeAux f rest with
        | none => simp [hr] at h
        | some cs1 =>
          simp only [hr, Option.some.injEq] at h
          subst h
          obtain ⟨hv, hb⟩ := utf8DecodeOne_sound _ _ _ hd
          have := ih rest cs1 hr
          simp only [utf8EncodeChars, List.flatMap_cons] at this ⊢
          rw [toNat_ofNat_of_valid cp hv, this, hb]

theorem utf8Decode_encode (s : String) : utf8Decode (utf8Encode s) = some s := by
  unfold utf8Decode
  have := utf8DecodeAux_encode s.data (utf8EncodeChars s.data).length (Nat.le_refl _)
  unfold utf8EncodeChars at this
  unfold utf8Encode
  rw [this]
  rfl

theorem utf8Decode_sound (bs : List Nat) (s : String) (h : utf8Decode bs = some s) :
    utf8Encode s = bs := by
  unfold utf8Decode at h
  cases hd : utf8DecodeAux bs.length bs with
  | none => simp [hd] at h
  | some cs =>
    simp only [hd, Option.map_some', Option.some.injEq] at h
    subst h
    exact utf8DecodeAux_sound _ _ _ hd

theorem utf8Decode_eq_none_iff (bs : List Nat) : utf8Decode bs = none ↔ ¬ ValidUTF8 bs := by
  constructor
  · rintro h ⟨s, rfl⟩
    rw [utf8Decode_encode] at h
    cases h
  · intro h
    cases hd : utf8Decode bs with
    | none => rfl
    | some s => exact absurd ⟨s, utf8Decode_sound bs s hd⟩ h

/-! ## Dispatch lemmas -/

theorem and_mask_and (f m x : Nat) (h : x &&& m = x) : (f &&& m) &&& x = f &&& x := by
  rw [Nat.and_assoc, Nat.land_comm m x, h]

theorem encode_common_eq_codec (E : Env) (o : PyObj) (flags : Nat) :
    encode_common E o flags = encode_codec E o (encode_select E flags) := by
  unfold encode_common encode_select
  by_cases h1 : flags &&& E.PYCBC_FMT_UTF8 = E.PYCBC_FMT_UTF8
  · rw [if_pos h1, if_pos h1]; rfl
  · rw [if_neg h1, if_neg h1]
    by_cases h2 : flags &&& E.PYCBC_FMT_BYTES = E.PYCBC_FMT_BYTES
    · rw [if_pos h2, if_pos h2]; rfl
    · rw [if_neg h2, if_neg h2]
      by_cases h3 : flags &&& E.PYCBC_FMT_PICKLE = E.PYCBC_FMT_PICKLE
      · rw [if_pos h3, if_pos h3]; rfl
      · rw [if_neg h3, if_neg h3]
        by_cases h4 : flags &&& E.PYCBC_FMT_JSON = E.PYCBC_FMT_JSON
        · rw [if_pos h4, if_pos h4]; rfl
        · rw [if_neg h4, if_neg h4]; rfl

theorem pycbc_get_u32_int (n : Nat) (h : n < 4294967296) :
    pycbc_get_u32 (.int n) = some n := by
  have h1 : (0 : Int) ≤ (n : Int) ∧ (n : Int) < 4294967296 := ⟨by omega, by omega⟩
  simp only [pycbc_get_u32, h1, and_self, if_true, Int.toNat_ofNat]

theorem pycbc_get_u32_lt (o : PyObj) (n : Nat) (h : pycbc_get_u32 o = some n) :
    n < 4294967296 := by
  cases o <;> simp only [pycbc_get_u32] at h <;> try cases h
  split_ifs at h with hc
  cases h
  omega

theorem int_ne_auto (E : Env) (hauto : pycbc_get_u32 E.pycbc_helpers.fmt_auto = none)
    (n : Nat) (h : n < 4294967296) : (PyObj.int n) ≠ E.pycbc_helpers.fmt_auto := by
  intro he
  rw [← he, pycbc_get_u32_int n h] at hauto
  cases hauto

/-- The primitive path of `pycbc_tc_encode_value` on a hint that is not the
Auto sentinel and coerces to `f`. -/
theorem encode_value_primitive (E : Env) (conn : Connection) (v hint : PyObj) (f : Nat)
    (htc : conn.tc = none) (hne : hint ≠ E.pycbc_helpers.fmt_auto)
    (hf : pycbc_get_u32 hint = some f) :
    pycbc_tc_encode_value E conn v (some hint) =
      match (encode_common E v f).result with
      | .crash => ⟨(encode_common E v f).events, .crash⟩
      | .error e => ⟨(encode_common E v f).events, .error e⟩
      | .ok enc =>
        ⟨(encode_common E v f).events, .ok ⟨enc.owner, enc.buf, f &&& E.PYCBC_FMT_MASK⟩⟩ := by
  unfold pycbc_tc_encode_value
  simp only [htc, if_neg hne, hf]

/-- The primitive path of `pycbc_tc_decode_value`. -/
theorem decode_value_primitive (E : Env) (conn : Connection) (buf : List Nat) (flags : Nat)
    (htc : conn.tc = none) (hpt : conn.data_passthrough = false) :
    pycbc_tc_decode_value E conn buf flags = decode_common E buf flags := by
  unfold pycbc_tc_decode_value
  simp only [htc, hpt]

theorem decode_common_utf8 (E : Env) (buf : List Nat) (flags : Nat)
    (h : flags &&& E.PYCBC_FMT_UTF8 = E.PYCBC_FMT_UTF8) :
    decode_common E buf flags = convert_to_string buf .CONVERT_MODE_UTF8_ONLY := by
  unfold decode_common
  rw [if_pos h]

theorem convert_to_string_utf8_only (buf : List Nat) :
    convert_to_string buf .CONVERT_MODE_UTF8_ONLY =
      match utf8Decode buf with
      | some s => ⟨[.decode_utf8 buf], .ok (.unicode s)⟩
      | none => ⟨[.decode_utf8 buf],
          .error (PYCBC_EXC_WRAP .ENCODING 0 "Couldn't decode as UTF-8")⟩ := by
  unfold convert_to_string PyUnicode_DecodeUTF8
  cases utf8Decode buf <;> simp

theorem convert_to_string_bytes_only (buf : List Nat) :
    convert_to_string buf .CONVERT_MODE_BYTES_ONLY = ⟨[], .ok (.bytes buf)⟩ := by
  unfold convert_to_string
  simp

theorem byteContent_cases (b : PyObj) (bs : List Nat) (h : b.byteContent = some bs) :
    b = .bytes bs ∨ b = .bytearray bs := by
  cases b <;> simp only [PyObj.byteContent] at h <;> try cases h
  · exact Or.inl rfl
  · exact Or.inr rfl

/-! ## Claims -/

/-- Round trip for the callback-free formats on text that is a sequence of
scalar values, the text `PyObj.unicode s`, and on bytes.  With no transcoder
and passthrough off, for every such text `s` the call
`encode_value(s, FMT_UTF8)` succeeds, its bytes are the UTF-8 encoding of `s`,
and `decode_value` on those bytes and the returned flag word yields `s`; for
every byte string or byte array `b` the call `encode_value(b, FMT_BYTES)`
succeeds, its bytes are the bytes of `b`, and `decode_value` on them and the
returned flag word yields the byte string with the same bytes, which compares
equal to `b`.  The constants are assumed to be 32-bit values inside the mask,
with `FMT_BYTES` not carrying the UTF8 bits, and the Auto sentinel not to be a
flag integer. -/
theorem roundtrip_utf8_bytes (E : Env) (conn : Connection)
    (htc : conn.tc = none) (hpt : conn.data_passthrough = false)
    (h32 : E.Fits32) (hmask : E.MaskCovers)
    (hsep : E.PYCBC_FMT_BYTES &&& E.PYCBC_FMT_UTF8 ≠ E.PYCBC_FMT_UTF8)
    (hauto : pycbc_get_u32 E.pycbc_helpers.fmt_auto = none) :
    (∀ s : String, ∃ out : EncodedValue,
      (pycbc_tc_encode_value E conn (.unicode s) (some (.int E.PYCBC_FMT_UTF8))).result
        = .ok out ∧
      out.buf = utf8Encode s ∧
      (pycbc_tc_decode_value E conn out.buf out.flags).result = .ok (.unicode s)) ∧
    (∀ (b : PyObj) (bs : List Nat), b.byteContent = some bs → ∃ out : EncodedValue,
      (pycbc_tc_encode_value E conn b (some (.int E.PYCBC_FMT_BYTES))).result = .ok out ∧
      out.buf = bs ∧
      (pycbc_tc_decode_value E conn out.buf out.flags).result = .ok (.bytes bs) ∧
      (PyObj.bytes bs).bytesEq b = true) := by
  have hU := h32 .Utf8
  have hB := h32 .Bytes
  have mU : E.PYCBC_FMT_UTF8 &&& E.PYCBC_FMT_MASK = E.PYCBC_FMT_UTF8 := hmask .Utf8
  have mB : E.PYCBC_FMT_BYTES &&& E.PYCBC_FMT_MASK = E.PYCBC_FMT_BYTES := hmask .Bytes
  simp only [Env.fmt] at hU hB
  constructor
  · intro s
    refine ⟨⟨.bytes (utf8Encode s), utf8Encode s, E.PYCBC_FMT_UTF8⟩, ?_, rfl, ?_⟩
    · rw [encode_value_primitive E conn _ _ _ htc (int_ne_auto E hauto _ hU)
        (pycbc_get_u32_int _ hU)]
      have hs : ¬ (E.PY_MAJOR_VERSION = 2 ∧ PyString_Check (.unicode s) = true) := by
        simp [PyString_Check, PyBytes_Check]
      simp only [encode_common, Nat.and_self, if_true, if_neg hs, PyUnicode_Check,
        encode_common_buffer, PyUnicode_AsUTF8String, PyBytes_AsStringAndSize, mU]
    · rw [decode_value_primitive E conn _ _ htc hpt, decode_common_utf8 E _ _ (Nat.and_self _),
        convert_to_string_utf8_only, utf8Decode_encode]
  · intro b bs hb
    refine ⟨⟨b, bs, E.PYCBC_FMT_BYTES⟩, ?_, rfl, ?_, ?_⟩
    · rw [encode_value_primitive E conn _ _ _ htc (int_ne_auto E hauto _ hB)
        (pycbc_get_u32_int _ hB)]
      rcases byteContent_cases b bs hb with rfl | rfl
      all_goals
        simp only [encode_common, if_neg hsep, Nat.and_self, if_true, encode_common_buffer,
          PyBytes_Check, PyByteArray_Check, PyBytes_AsStringAndSize, mB, Bool.or_true,
          Bool.true_or]
    · rw [decode_value_primitive E conn _ _ htc hpt]
      simp only [decode_common, if_neg hsep, Nat.and_self, if_true,
        convert_to_string_bytes_only]
    · rcases byteContent_cases b bs hb with rfl | rfl <;> simp [PyObj.bytesEq]

theorem envBits_fits32 : envBits.Fits32 := by decide

theorem envBits_maskCovers : envBits.MaskCovers := by decide

theorem envBits_separated : envBits.Separated := by decide

theorem envZero_fits32 : envZero.Fits32 := by decide

theorem envZero_maskCovers : envZero.MaskCovers := by decide

theorem envZero_separated : envZero.Separated := by decide

/-- The round trip at a concrete build: the text "héllo" encodes to
68 C3 A9 6C 6C 6F and decodes back to itself; the bytes 00 01 02 encode to
themselves and decode to the same three bytes. -/
theorem roundtrip_utf8_bytes_sample :
    (∃ out : EncodedValue,
      (pycbc_tc_encode_value envBits connPlain (.unicode "héllo") (some (.int 4))).result
        = .ok out ∧
      out.buf = [0x68, 0xC3, 0xA9, 0x6C, 0x6C, 0x6F] ∧
      (pycbc_tc_decode_value envBits connPlain out.buf out.flags).result
        = .ok (.unicode "héllo")) ∧
    (∃ out : EncodedValue,
      (pycbc_tc_encode_value envBits connPlain (.bytes [0, 1, 2]) (some (.int 2))).result
        = .ok out ∧
      out.buf = [0, 1, 2] ∧
      (pycbc_tc_decode_value envBits connPlain out.buf out.flags).result
        = .ok (.bytes [0, 1, 2]) ∧
      (PyObj.bytes [0, 1, 2]).bytesEq (.bytes [0, 1, 2]) = true) :=
  have h := roundtrip_utf8_bytes envBits connPlain rfl rfl envBits_fits32
    envBits_maskCovers (by decide) (by decide)
  ⟨h.1 "héllo", h.2 (.bytes [0, 1, 2]) [0, 1, 2] rfl⟩

/-- C1: the code at the failing input.  In every build other than Python 2,
with no transcoder attached, `encode_value(t, FMT_UTF8)` on a text `t` that
holds a surrogate does not succeed: it makes no foreign call and ends in a
crash.  `PyUnicode_AsUTF8String` returns `NULL` for such a text (line 96),
`encode_common` does not test the result, and line 145 dereferences it in
`PyByteArray_Check`.  `convert_to_bytesobj` tests the result of the same call
(line 35) and raises an encoding error on the same text.  The UTF8 constant is
assumed to be a 32-bit value and the Auto sentinel not to be a flag integer. -/
theorem c1_surrogate_text_crashes (E : Env) (conn : Connection)
    (htc : conn.tc = none) (hpy : E.PY_MAJOR_VERSION ≠ 2) (h32 : E.Fits32)
    (hauto : pycbc_get_u32 E.pycbc_helpers.fmt_auto = none)
    (cps : List Nat) (hs : cps.any isSurrogate = true) :
    pycbc_tc_encode_value E conn (.unicode_raw cps) (some (.int E.PYCBC_FMT_UTF8)) =
      ⟨[], .crash⟩ ∧
    (∀ out, (pycbc_tc_encode_value E conn (.unicode_raw cps)
      (some (.int E.PYCBC_FMT_UTF8))).result ≠ .ok out) ∧
    convert_to_bytesobj E.PY_MAJOR_VERSION (.unicode_raw cps) =
      .error (PYCBC_EXC_WRAP_OBJ .ENCODING 0 "Couldn't convert object to bytes"
        (.unicode_raw cps)) := by
  have hU := h32 .Utf8
  simp only [Env.fmt] at hU
  have hnull : PyUnicode_AsUTF8String E.PY_MAJOR_VERSION (.unicode_raw cps) = none := by
    simp only [PyUnicode_AsUTF8String, if_neg hpy, hs, if_true]
  have h2 : ¬ (E.PY_MAJOR_VERSION = 2 ∧ PyString_Check (.unicode_raw cps) = true) :=
    fun h => hpy h.1
  have hcrash : pycbc_tc_encode_value E conn (.unicode_raw cps)
      (some (.int E.PYCBC_FMT_UTF8)) = ⟨[], .crash⟩ := by
    rw [encode_value_primitive E conn _ _ _ htc (int_ne_auto E hauto _ hU)
      (pycbc_get_u32_int _ hU)]
    simp only [encode_common, Nat.and_self, if_true, if_neg h2, PyUnicode_Check, hnull]
  refine ⟨hcrash, fun out ho => ?_, ?_⟩
  · rw [hcrash] at ho
    cases ho
  · simp only [convert_to_bytesobj, PyUnicode_Check, if_true, hnull]

/-- C1 at a concrete build: in the Python 3 build with one bit per format and
no transcoder, `encode_value` of the one-character text U+D800 with the hint
`FMT_UTF8` crashes, and `convert_to_bytesobj` on the same text raises an
encoding error. -/
theorem c1_surrogate_text_crashes_witness :
    pycbc_tc_encode_value envBits connPlain (.unicode_raw [0xD800]) (some (.int 4)) =
      ⟨[], .crash⟩ ∧
    (∀ out, (pycbc_tc_encode_value envBits connPlain (.unicode_raw [0xD800])
      (some (.int 4))).result ≠ .ok out) ∧
    convert_to_bytesobj 3 (.unicode_raw [0xD800]) =
      .error (PYCBC_EXC_WRAP_OBJ .ENCODING 0 "Couldn't convert object to bytes"
        (.unicode_raw [0xD800])) :=
  c1_surrogate_text_crashes envBits connPlain rfl (by decide) envBits_fits32 (by decide)
    [0xD800] (by decide)


/-- The transcoder path of `pycbc_tc_encode_key` never yields an empty key:
the check of lines 343-350 rejects it. -/
theorem encode_key_transcoder_nonempty (E : Env) (conn : Connection) (tc : Transcoder)
    (htc : conn.tc = some tc) (key : PyObj) (out : Encoded)
    (hok : (pycbc_tc_encode_key E conn key).result = .ok out) : 0 < out.buf.length := by
  unfold pycbc_tc_encode_key at hok
  simp only [htc] at hok
  cases hr : (do_call_tc E tc key Option.none .ENCODE_KEY).result with
  | crash => simp [hr] at hok
  | error e => simp [hr] at hok
  | ok new_key =>
    simp only [hr] at hok
    cases hb : PyBytes_AsStringAndSize new_key with
    | none => simp [hb] at hok
    | some b =>
      simp only [hb] at hok
      by_cases hl : b.length = 0
      · simp [hl] at hok
      · simp only [if_neg hl, Res.ok.injEq] at hok
        subst hok
        exact Nat.pos_of_ne_zero hl

/-- C3: the code at the failing input.  With no transcoder attached, in every
build and for every passthrough setting, `pycbc_tc_encode_key` on the empty
text succeeds and returns an empty byte sequence: the primitive path has no
check of the length, which the transcoder path has. -/
theorem c3_primitive_empty_key_accepted (E : Env) (pt : Bool) (dfl : PyObj) :
    pycbc_tc_encode_key E ⟨Option.none, pt, dfl⟩ (.unicode "") =
      ⟨[], .ok ⟨.bytes [], []⟩⟩ := by
  have hs : ¬ (E.PY_MAJOR_VERSION = 2 ∧ PyString_Check (.unicode "") = true) := by
    simp [PyString_Check, PyBytes_Check]
  simp only [pycbc_tc_encode_key, encode_common, Nat.and_self, if_true, if_neg hs,
    encode_common_buffer, PyUnicode_AsUTF8String, PyBytes_AsStringAndSize]
  rfl

theorem encode_select_mask (E : Env) (hmask : E.MaskCovers) (f : Nat) :
    encode_select E (f &&& E.PYCBC_FMT_MASK) = encode_select E f := by
  have mU : E.PYCBC_FMT_UTF8 &&& E.PYCBC_FMT_MASK = E.PYCBC_FMT_UTF8 := hmask .Utf8
  have mB : E.PYCBC_FMT_BYTES &&& E.PYCBC_FMT_MASK = E.PYCBC_FMT_BYTES := hmask .Bytes
  have mJ : E.PYCBC_FMT_JSON &&& E.PYCBC_FMT_MASK = E.PYCBC_FMT_JSON := hmask .Json
  have mP : E.PYCBC_FMT_PICKLE &&& E.PYCBC_FMT_MASK = E.PYCBC_FMT_PICKLE := hmask .Pickle
  simp only [encode_select, and_mask_and _ _ _ mU, and_mask_and _ _ _ mB,
    and_mask_and _ _ _ mJ, and_mask_and _ _ _ mP]

theorem encode_select_fmt (E : Env) (hsep : E.Separated) (F : Format) :
    encode_select E (E.fmt F) = some F := by
  obtain ⟨h1, h2, h3, h4, h5, h6⟩ := hsep
  cases F <;>
    simp only [encode_select, Env.fmt, Nat.and_self, if_true, if_neg h1, if_neg h2, if_neg h3,
      if_neg h4, if_neg h5, if_neg h6]

theorem encode_value_ok_inv (E : Env) (conn : Connection) (v hint : PyObj)
    (htc : conn.tc = none) (out : EncodedValue)
    (h : (pycbc_tc_encode_value E conn v (some hint)).result = .ok out) :
    ∃ f : Nat,
      pycbc_get_u32 (if hint = E.pycbc_helpers.fmt_auto then
        pycbc_tc_determine_format E.pycbc_helpers v else hint) = some f ∧
      out.flags = f &&& E.PYCBC_FMT_MASK ∧
      (encode_common E v f).result = .ok ⟨out.owner, out.buf⟩ := by
  unfold pycbc_tc_encode_value at h
  simp only [htc] at h
  cases hg : pycbc_get_u32 (if hint = E.pycbc_helpers.fmt_auto then
      pycbc_tc_determine_format E.pycbc_helpers v else hint) with
  | none => simp [hg] at h
  | some f =>
    simp only [hg] at h
    cases hr : (encode_common E v f).result with
    | crash => simp [hr] at h
    | error e => simp [hr] at h
    | ok enc =>
      simp only [hr, Res.ok.injEq] at h
      subst h
      exact ⟨f, rfl, rfl, hr⟩

theorem pycbc_get_u32_int_inv (n f : Nat) (h : pycbc_get_u32 (.int n) = some f) : f = n := by
  simp only [pycbc_get_u32] at h
  split_ifs at h
  simp only [Option.some.injEq, Int.toNat_ofNat] at h
  exact h.symm

theorem determine_format_cases (h : Helpers) (v : PyObj) :
    pycbc_tc_determine_format h v = h.fmt_utf8_flags ∨
    pycbc_tc_determine_format h v = h.fmt_bytes_flags ∨
    pycbc_tc_determine_format h v = h.fmt_json_flags ∨
    pycbc_tc_determine_format h v = h.fmt_pickle_flags := by
  unfold pycbc_tc_determine_format
  split_ifs <;> simp

theorem determine_format_fmt (E : Env) (hflags : E.HelperFlags) (v : PyObj) :
    ∃ F : Format, pycbc_tc_determine_format E.pycbc_helpers v = .int (E.fmt F) := by
  obtain ⟨a, b, c, d⟩ := hflags
  rcases determine_format_cases E.pycbc_helpers v with h | h | h | h
  · exact ⟨.Utf8, by rw [h, a]; rfl⟩
  · exact ⟨.Bytes, by rw [h, b]; rfl⟩
  · exact ⟨.Json, by rw [h, c]; rfl⟩
  · exact ⟨.Pickle, by rw [h, d]; rfl⟩

/-- A missing hint (`flag_v == NULL`) is the connection default (lines
442-444). -/
theorem encode_value_default_hint (E : Env) (conn : Connection) (v : PyObj) :
    pycbc_tc_encode_value E conn v Option.none =
      pycbc_tc_encode_value E conn v (some conn.dfl_fmt) := rfl

/-- Resolution of the Auto sentinel: the call with Auto is the call with the
flag object the classifier returns. -/
theorem encode_value_auto (E : Env) (conn : Connection) (v : PyObj)
    (htc : conn.tc = none) :
    pycbc_tc_encode_value E conn v (some E.pycbc_helpers.fmt_auto) =
      pycbc_tc_encode_value E conn v
        (some (pycbc_tc_determine_format E.pycbc_helpers v)) := by
  unfold pycbc_tc_encode_value
  simp only [htc, if_true]
  by_cases hc : pycbc_tc_determine_format E.pycbc_helpers v = E.pycbc_helpers.fmt_auto
  · rw [if_pos hc]
  · rw [if_neg hc]

/-- C4, the claim as stated fails: the explicit hint 6 (`FMT_UTF8|FMT_BYTES`,
a 32-bit value) on a text value succeeds, the UTF-8 codec produces the bytes,
and the flag word written is 6, which is none of the four format constants.
This holds in the build with one bit per format and in the build where JSON
is zero. -/
theorem c4_counterexample :
    (pycbc_tc_encode_value envBits connPlain (.unicode "a") (some (.int 6))).result
      = .ok ⟨.bytes [0x61], [0x61], 6⟩ ∧
    (6 &&& envBits.PYCBC_FMT_MASK ≠ envBits.PYCBC_FMT_UTF8 ∧
     6 &&& envBits.PYCBC_FMT_MASK ≠ envBits.PYCBC_FMT_BYTES ∧
     6 &&& envBits.PYCBC_FMT_MASK ≠ envBits.PYCBC_FMT_JSON ∧
     6 &&& envBits.PYCBC_FMT_MASK ≠ envBits.PYCBC_FMT_PICKLE) ∧
    (pycbc_tc_encode_value envZero connPlain (.unicode "a") (some (.int 6))).result
      = .ok ⟨.bytes [0x61], [0x61], 6⟩ ∧
    (6 &&& envZero.PYCBC_FMT_MASK ≠ envZero.PYCBC_FMT_UTF8 ∧
     6 &&& envZero.PYCBC_FMT_MASK ≠ envZero.PYCBC_FMT_BYTES ∧
     6 &&& envZero.PYCBC_FMT_MASK ≠ envZero.PYCBC_FMT_JSON ∧
     6 &&& envZero.PYCBC_FMT_MASK ≠ envZero.PYCBC_FMT_PICKLE) := by
  decide

/-- C4, amended: with no transcoder attached, when the hint is an explicit
32-bit value whose `FMT_MASK` bits equal exactly one format constant, or the
hint is Auto, then whenever `encode_value` succeeds the flag word it writes
is exactly that one format constant, and the bytes and owner it returns are
those produced by the codec of that format.  The constants are assumed to lie
inside the mask and to select their own branch, and the helper flag objects
to be the integers of the constants. -/
theorem c4_flag_word_names_one_format (E : Env) (conn : Connection)
    (htc : conn.tc = none) (hmask : E.MaskCovers) (hsep : E.Separated)
    (hflags : E.HelperFlags) :
    (∀ (v hint : PyObj) (f : Nat) (F : Format) (out : EncodedValue),
      hint ≠ E.pycbc_helpers.fmt_auto → pycbc_get_u32 hint = some f →
      f &&& E.PYCBC_FMT_MASK = E.fmt F →
      (pycbc_tc_encode_value E conn v (some hint)).result = .ok out →
      out.flags = E.fmt F ∧
      (encode_codec E v (some F)).result = .ok ⟨out.owner, out.buf⟩) ∧
    (∀ (v : PyObj) (out : EncodedValue),
      (pycbc_tc_encode_value E conn v (some E.pycbc_helpers.fmt_auto)).result = .ok out →
      ∃ F : Format,
        pycbc_tc_determine_format E.pycbc_helpers v = .int (E.fmt F) ∧
        out.flags = E.fmt F ∧
        (encode_codec E v (some F)).result = .ok ⟨out.owner, out.buf⟩) := by
  have mF : ∀ F : Format, E.fmt F &&& E.PYCBC_FMT_MASK = E.fmt F := hmask
  have key : ∀ (v : PyObj) (f : Nat) (F : Format) (out : EncodedValue),
      f &&& E.PYCBC_FMT_MASK = E.fmt F → out.flags = f &&& E.PYCBC_FMT_MASK →
      (encode_common E v f).result = .ok ⟨out.owner, out.buf⟩ →
      out.flags = E.fmt F ∧
      (encode_codec E v (some F)).result = .ok ⟨out.owner, out.buf⟩ := by
    intro v f F out hF h1 h2
    refine ⟨h1.trans hF, ?_⟩
    rw [encode_common_eq_codec, ← encode_select_mask E hmask, hF,
      encode_select_fmt E hsep] at h2
    exact h2
  constructor
  · intro v hint f F out hne hf hF hok
    obtain ⟨g, hg, h1, h2⟩ := encode_value_ok_inv E conn v hint htc out hok
    rw [if_neg hne, hf] at hg
    cases hg
    exact key v f F out hF h1 h2
  · intro v out hok
    obtain ⟨F, hF⟩ := determine_format_fmt E hflags v
    obtain ⟨g, hg, h1, h2⟩ := encode_value_ok_inv E conn v _ htc out hok
    rw [if_pos rfl, hF] at hg
    have := pycbc_get_u32_int_inv _ _ hg
    subst this
    exact ⟨F, hF, key v _ F out (mF F) h1 h2⟩

/-- C4 amended, at a concrete build: the hint 0xABCD0004, whose mask bits are
`FMT_UTF8`, on the text "a" writes the flag word 4 with the bytes of the UTF-8
codec; Auto on `True` writes the flag word of the format the classifier
names. -/
theorem c4_flag_word_names_one_format_witness :
    ((⟨.bytes [0x61], [0x61], 4⟩ : EncodedValue).flags = envBits.fmt .Utf8 ∧
      (encode_codec envBits (.unicode "a") (some .Utf8)).result
        = .ok ⟨.bytes [0x61], [0x61]⟩) ∧
    (∃ F : Format,
      pycbc_tc_determine_format envBits.pycbc_helpers (.bool true) = .int (envBits.fmt F) ∧
      (⟨.bytes [0x74, 0x72, 0x75, 0x65], [0x74, 0x72, 0x75, 0x65], 8⟩ : EncodedValue).flags
        = envBits.fmt F ∧
      (encode_codec envBits (.bool true) (some F)).result
        = .ok ⟨.bytes [0x74, 0x72, 0x75, 0x65], [0x74, 0x72, 0x75, 0x65]⟩) :=
  have h := c4_flag_word_names_one_format envBits connPlain rfl envBits_maskCovers
    envBits_separated (by decide)
  ⟨h.1 (.unicode "a") (.int 0xABCD0004) 0xABCD0004 .Utf8 ⟨.bytes [0x61], [0x61], 4⟩
      (by decide) (by decide) (by decide) (by decide),
   h.2 (.bool true) ⟨.bytes [0x74, 0x72, 0x75, 0x65], [0x74, 0x72, 0x75, 0x65], 8⟩
      (by decide)⟩

theorem encode_common_mask (E : Env) (hmask : E.MaskCovers) (v : PyObj) (f : Nat) :
    encode_common E v (f &&& E.PYCBC_FMT_MASK) = encode_common E v f := by
  rw [encode_common_eq_codec, encode_common_eq_codec, encode_select_mask E hmask]

theorem get_u32_ne_auto (E : Env) (hauto : pycbc_get_u32 E.pycbc_helpers.fmt_auto = none)
    (hint : PyObj) (f : Nat) (hf : pycbc_get_u32 hint = some f) :
    hint ≠ E.pycbc_helpers.fmt_auto := by
  intro he
  rw [he, hauto] at hf
  cases hf

/-- C5: high bits are zeroed on the primitive path.  With no transcoder
attached, for every value and every hint that coerces to the 32-bit value
`f`, if `encode_value` succeeds then the flag word it outputs is
`f & FMT_MASK`, every bit of it lies inside `FMT_MASK`, and the call with the
hint `f & FMT_MASK` succeeds with the same owner, the same bytes and the same
flag word.  The format constants are assumed to lie inside the mask and the
Auto sentinel not to be a flag integer. -/
theorem c5_high_bits_zeroed (E : Env) (conn : Connection)
    (htc : conn.tc = none) (hmask : E.MaskCovers)
    (hauto : pycbc_get_u32 E.pycbc_helpers.fmt_auto = none)
    (v hint : PyObj) (f : Nat) (out : EncodedValue)
    (hf : pycbc_get_u32 hint = some f)
    (hok : (pycbc_tc_encode_value E conn v (some hint)).result = .ok out) :
    out.flags = f &&& E.PYCBC_FMT_MASK ∧
    out.flags &&& E.PYCBC_FMT_MASK = out.flags ∧
    (pycbc_tc_encode_value E conn v (some (.int (f &&& E.PYCBC_FMT_MASK : Nat)))).result
      = .ok out := by
  have hne := get_u32_ne_auto E hauto hint f hf
  have hlt : f &&& E.PYCBC_FMT_MASK < 4294967296 :=
    Nat.lt_of_le_of_lt Nat.and_le_left (pycbc_get_u32_lt hint f hf)
  rw [encode_value_primitive E conn v hint f htc hne hf] at hok
  rw [encode_value_primitive E conn v _ _ htc (int_ne_auto E hauto _ hlt)
    (pycbc_get_u32_int _ hlt), encode_common_mask E hmask]
  have hidem : f &&& E.PYCBC_FMT_MASK &&& E.PYCBC_FMT_MASK = f &&& E.PYCBC_FMT_MASK := by
    rw [Nat.and_assoc, Nat.and_self]
  cases hr : (encode_common E v f).result with
  | crash => simp [hr] at hok
  | error e => simp [hr] at hok
  | ok enc =>
    simp only [hr, Res.ok.injEq] at hok
    subst hok
    simp only [hidem, and_self]

/-- C5 at a concrete build: the hint 0xABCD0004 on the text "a" stores the
flag word 4, and the hint 4 gives the same output. -/
theorem c5_high_bits_zeroed_witness :
    (⟨.bytes [0x61], [0x61], 4⟩ : EncodedValue).flags = 0xABCD0004 &&& envBits.PYCBC_FMT_MASK ∧
    (⟨.bytes [0x61], [0x61], 4⟩ : EncodedValue).flags &&& envBits.PYCBC_FMT_MASK
      = (⟨.bytes [0x61], [0x61], 4⟩ : EncodedValue).flags ∧
    (pycbc_tc_encode_value envBits connPlain (.unicode "a")
      (some (.int (0xABCD0004 &&& envBits.PYCBC_FMT_MASK : Nat)))).result
      = .ok ⟨.bytes [0x61], [0x61], 4⟩ :=
  c5_high_bits_zeroed envBits connPlain rfl envBits_maskCovers (by decide)
    (.unicode "a") (.int 0xABCD0004) 0xABCD0004 ⟨.bytes [0x61], [0x61], 4⟩
    (by decide) (by decide)

/-- C6: Auto classification is the first-match rule.  For every value, the
classifier returns the Utf8 flag object for a text; otherwise the Bytes flag
object for a byte string or byte array; otherwise the Json flag object for a
list, tuple, dict, boolean or null; otherwise the Pickle flag object (so for
integers, floats and other objects).  It is a total function, its result is
one of these four flag objects, and it depends on the shape of the value
only. -/
theorem c6_classification_first_match (h : Helpers) :
    (∀ v : PyObj, pycbc_tc_determine_format h v =
      match v.shape with
      | .text => h.fmt_utf8_flags
      | .bytes => h.fmt_bytes_flags
      | .bytearray => h.fmt_bytes_flags
      | .list => h.fmt_json_flags
      | .tuple => h.fmt_json_flags
      | .dict => h.fmt_json_flags
      | .bool => h.fmt_json_flags
      | .null => h.fmt_json_flags
      | .int => h.fmt_pickle_flags
      | .float => h.fmt_pickle_flags
      | .other => h.fmt_pickle_flags) ∧
    (∀ v : PyObj,
      pycbc_tc_determine_format h v = h.fmt_utf8_flags ∨
      pycbc_tc_determine_format h v = h.fmt_bytes_flags ∨
      pycbc_tc_determine_format h v = h.fmt_json_flags ∨
      pycbc_tc_determine_format h v = h.fmt_pickle_flags) ∧
    (∀ v w : PyObj, v.shape = w.shape →
      pycbc_tc_determine_format h v = pycbc_tc_determine_format h w) := by
  have tab : ∀ v : PyObj, pycbc_tc_determine_format h v =
      match v.shape with
      | .text => h.fmt_utf8_flags
      | .bytes => h.fmt_bytes_flags
      | .bytearray => h.fmt_bytes_flags
      | .list => h.fmt_json_flags
      | .tuple => h.fmt_json_flags
      | .dict => h.fmt_json_flags
      | .bool => h.fmt_json_flags
      | .null => h.fmt_json_flags
      | .int => h.fmt_pickle_flags
      | .float => h.fmt_pickle_flags
      | .other => h.fmt_pickle_flags := by
    intro v
    cases v with
    | bool b => cases b <;> simp [pycbc_tc_determine_format, PyObj.shape, PyUnicode_Check,
        PyBytes_Check, PyByteArray_Check, PyList_Check, PyTuple_Check, PyDict_Check]
    | _ => simp [pycbc_tc_determine_format, PyObj.shape, PyUnicode_Check,
        PyBytes_Check, PyByteArray_Check, PyList_Check, PyTuple_Check, PyDict_Check]
  refine ⟨tab, determine_format_cases h, ?_⟩
  intro v w hs
  rw [tab v, tab w, hs]

/-- C7: Auto is resolved before anything is written.  With no transcoder
attached, for every value the call with the Auto sentinel is the call with
the flag object the classifier returns (same foreign calls, same bytes, same
flag word, same error), and on success the flag word written is exactly the
constant of the format the classifier names.  The helper flag objects are
assumed to be the integers of the constants, which lie inside the mask. -/
theorem c7_auto_resolved_first (E : Env) (conn : Connection)
    (htc : conn.tc = none) (hmask : E.MaskCovers) (hflags : E.HelperFlags) (v : PyObj) :
    pycbc_tc_encode_value E conn v (some E.pycbc_helpers.fmt_auto) =
      pycbc_tc_encode_value E conn v
        (some (pycbc_tc_determine_format E.pycbc_helpers v)) ∧
    (∀ out : EncodedValue,
      (pycbc_tc_encode_value E conn v (some E.pycbc_helpers.fmt_auto)).result = .ok out →
      ∃ F : Format,
        pycbc_tc_determine_format E.pycbc_helpers v = .int (E.fmt F) ∧
        out.flags = E.fmt F) := by
  refine ⟨encode_value_auto E conn v htc, ?_⟩
  intro out hok
  obtain ⟨F, hF⟩ := determine_format_fmt E hflags v
  obtain ⟨g, hg, h1, _⟩ := encode_value_ok_inv E conn v _ htc out hok
  rw [if_pos rfl, hF] at hg
  have := pycbc_get_u32_int_inv _ _ hg
  subst this
  exact ⟨F, hF, h1.trans (hmask F)⟩

/-- C7 at a concrete build: `encode_value(True, Auto)` is
`encode_value(True, FMT_JSON)`, it outputs the flag word `FMT_JSON`, and
decoding its bytes under that flag word yields the boolean true. -/
theorem c7_auto_resolved_first_witness :
    (pycbc_tc_encode_value envBits connPlain (.bool true) (some (.object 1 true)) =
      pycbc_tc_encode_value envBits connPlain (.bool true) (some (.int 8)) ∧
     (∃ F : Format,
        pycbc_tc_determine_format envBits.pycbc_helpers (.bool true)
          = .int (envBits.fmt F) ∧
        (⟨.bytes [0x74, 0x72, 0x75, 0x65], [0x74, 0x72, 0x75, 0x65], 8⟩ : EncodedValue).flags
          = envBits.fmt F)) ∧
    (pycbc_tc_encode_value envBits connPlain (.bool true) (some (.object 1 true))).result
      = .ok ⟨.bytes [0x74, 0x72, 0x75, 0x65], [0x74, 0x72, 0x75, 0x65], 8⟩ ∧
    (pycbc_tc_decode_value envBits connPlain [0x74, 0x72, 0x75, 0x65] 8).result
      = .ok (.bool true) :=
  have h := c7_auto_resolved_first envBits connPlain rfl envBits_maskCovers (by decide)
    (.bool true)
  ⟨⟨h.1, h.2 ⟨.bytes [0x74, 0x72, 0x75, 0x65], [0x74, 0x72, 0x75, 0x65], 8⟩ (by decide)⟩,
    by decide, by decide⟩

/-- C8: passthrough decode is the identity on bytes.  With passthrough on, for
every byte sequence, every flag word and every transcoder setting,
`decode_value` and `decode_key` succeed with the byte string holding exactly
the input bytes, and make no foreign call at all: no transcoder method, no
UTF-8 decoding, no helper. -/
theorem c8_passthrough_decode_identity (E : Env) (conn : Connection)
    (hpt : conn.data_passthrough = true) (bs : List Nat) (flags : Nat) :
    pycbc_tc_decode_value E conn bs flags = ⟨[], .ok (.bytes bs)⟩ ∧
    pycbc_tc_decode_key E conn bs = ⟨[], .ok (.bytes bs)⟩ := by
  constructor
  · unfold pycbc_tc_decode_value
    simp only [hpt]
  · unfold pycbc_tc_decode_key
    simp only [hpt, if_true, decode_key_hash_check, PyObj.hashable]

/-- C8 at a concrete connection: passthrough on and a transcoder all of whose
methods raise. -/
theorem c8_passthrough_decode_identity_witness :
    pycbc_tc_decode_value envBits connPassthrough [0xFF, 0x00] 0xABCD0004
      = ⟨[], .ok (.bytes [0xFF, 0x00])⟩ ∧
    pycbc_tc_decode_key envBits connPassthrough [0xFF, 0x00]
      = ⟨[], .ok (.bytes [0xFF, 0x00])⟩ :=
  c8_passthrough_decode_identity envBits connPassthrough rfl [0xFF, 0x00] 0xABCD0004

theorem encode_value_tc_ok (E : Env) (conn : Connection) (tc : Transcoder)
    (htc : conn.tc = some tc) (v hint new_value flags_obj : PyObj)
    (enc : List PyObj → Except PyObj PyObj) (b : List Nat) (w : Nat)
    (hget : tc.getattr E.pycbc_helpers.tcname_encode_value = some enc)
    (hcall : enc [v, hint] = .ok (.tuple (.cons new_value (.cons flags_obj .nil))))
    (hw : pycbc_get_u32 flags_obj = some w)
    (hb : PyBytes_AsStringAndSize new_value = some b) :
    pycbc_tc_encode_value E conn v (some hint) =
      ⟨[.tc_method E.pycbc_helpers.tcname_encode_value [v, hint]],
        .ok ⟨new_value, b, w⟩⟩ := by
  unfold pycbc_tc_encode_value
  simp only [htc, do_call_tc, tc_args, strlookup, Option.map_some', hget, hcall, hw, hb]

theorem decode_value_tc (E : Env) (conn : Connection) (tc : Transcoder)
    (htc : conn.tc = some tc) (hpt : conn.data_passthrough = false) (bs : List Nat) (w : Nat)
    (dec : List PyObj → Except PyObj PyObj)
    (hget : tc.getattr E.pycbc_helpers.tcname_decode_value = some dec) :
    pycbc_tc_decode_value E conn bs w =
      ⟨[.tc_method E.pycbc_helpers.tcname_decode_value [.bytes bs, .int w]],
        match dec [.bytes bs, .int w] with
        | .ok r => .ok r
        | .error exc => .error (.python exc)⟩ := by
  unfold pycbc_tc_decode_value
  simp only [htc, hpt, do_call_tc, tc_args, strlookup, Option.map_some', hget,
    pycbc_IntFromUL]
  cases dec [.bytes bs, .int w] <;> rfl

/-- C9: flag words survive the transcoder path bit for bit.  With a transcoder
attached and passthrough off: if the transcoder method `encode_value`, called
on the value and the hint, returns the pair of the byte string `b` and the
32-bit integer `w`, then `encode_value` makes exactly that call and outputs
the bytes `b` and the flag word `w` itself, unmasked; `decode_value` on `bs`
and `w` makes exactly one foreign call, the transcoder method `decode_value`
on the byte string `bs` and the integer `w`, and returns what that call
returns (its value, or the exception it raises); hence decoding the output of
such an encode hands the transcoder the bytes `b` and the flag word `w`. -/
theorem c9_transcoder_flags_verbatim (E : Env) (conn : Connection) (tc : Transcoder)
    (htc : conn.tc = some tc) (hpt : conn.data_passthrough = false) :
    (∀ (v hint : PyObj) (enc : List PyObj → Except PyObj PyObj) (b : List Nat) (w : Nat),
      tc.getattr E.pycbc_helpers.tcname_encode_value = some enc →
      enc [v, hint] = .ok (.tuple (.cons (.bytes b) (.cons (.int w) .nil))) →
      w < 4294967296 →
      pycbc_tc_encode_value E conn v (some hint) =
        ⟨[.tc_method E.pycbc_helpers.tcname_encode_value [v, hint]],
          .ok ⟨.bytes b, b, w⟩⟩) ∧
    (∀ (bs : List Nat) (w : Nat) (dec : List PyObj → Except PyObj PyObj),
      tc.getattr E.pycbc_helpers.tcname_decode_value = some dec →
      pycbc_tc_decode_value E conn bs w =
        ⟨[.tc_method E.pycbc_helpers.tcname_decode_value [.bytes bs, .int w]],
          match dec [.bytes bs, .int w] with
          | .ok r => .ok r
          | .error exc => .error (.python exc)⟩) ∧
    (∀ (v hint : PyObj) (enc dec : List PyObj → Except PyObj PyObj) (b : List Nat) (w : Nat),
      tc.getattr E.pycbc_helpers.tcname_encode_value = some enc →
      tc.getattr E.pycbc_helpers.tcname_decode_value = some dec →
      enc [v, hint] = .ok (.tuple (.cons (.bytes b) (.cons (.int w) .nil))) →
      w < 4294967296 →
      ∃ out : EncodedValue,
        (pycbc_tc_encode_value E conn v (some hint)).result = .ok out ∧
        (pycbc_tc_decode_value E conn out.buf out.flags).events =
          [.tc_method E.pycbc_helpers.tcname_decode_value [.bytes b, .int w]]) := by
  have hencode : ∀ (v hint : PyObj) (enc : List PyObj → Except PyObj PyObj) (b : List Nat)
      (w : Nat), tc.getattr E.pycbc_helpers.tcname_encode_value = some enc →
      enc [v, hint] = .ok (.tuple (.cons (.bytes b) (.cons (.int w) .nil))) →
      w < 4294967296 →
      pycbc_tc_encode_value E conn v (some hint) =
        ⟨[.tc_method E.pycbc_helpers.tcname_encode_value [v, hint]],
          .ok ⟨.bytes b, b, w⟩⟩ :=
    fun v hint enc b w hget hcall hw =>
      encode_value_tc_ok E conn tc htc v hint _ _ enc b w hget hcall
        (pycbc_get_u32_int w hw) rfl
  have hdecode := decode_value_tc E conn tc htc hpt
  refine ⟨hencode, hdecode, ?_⟩
  intro v hint enc dec b w hge hgd hcall hw
  refine ⟨⟨.bytes b, b, w⟩, ?_, ?_⟩
  · rw [hencode v hint enc b w hge hcall hw]
  · rw [hdecode b w dec hgd]

/-- C9 at a concrete connection: the transcoder returns the flag word
0xABCD0004 with three bytes; `encode_value` outputs both unchanged, and
`decode_value` passes both on and returns what the transcoder returns. -/
theorem c9_transcoder_flags_verbatim_witness :
    pycbc_tc_encode_value envBits connHighBits (.unicode "v") (some (.int 4)) =
      ⟨[.tc_method "encode_value" [.unicode "v", .int 4]],
        .ok ⟨.bytes [1, 2, 3], [1, 2, 3], 0xABCD0004⟩⟩ ∧
    pycbc_tc_decode_value envBits connHighBits [1, 2, 3] 0xABCD0004 =
      ⟨[.tc_method "decode_value" [.bytes [1, 2, 3], .int 0xABCD0004]],
        .ok (.tuple (.cons (.bytes [1, 2, 3]) (.cons (.int 0xABCD0004) .nil)))⟩ :=
  have h := c9_transcoder_flags_verbatim envBits connHighBits tcHighBits rfl rfl
  ⟨h.1 (.unicode "v") (.int 4) _ [1, 2, 3] 0xABCD0004 rfl rfl (by decide),
   h.2.1 [1, 2, 3] 0xABCD0004 _ rfl⟩

theorem decode_value_utf8 (E : Env) (conn : Connection) (bs : List Nat) (flags : Nat)
    (htc : conn.tc = none) (hpt : conn.data_passthrough = false)
    (hsel : flags &&& E.PYCBC_FMT_UTF8 = E.PYCBC_FMT_UTF8) :
    pycbc_tc_decode_value E conn bs flags =
      match utf8Decode bs with
      | some s => ⟨[.decode_utf8 bs], .ok (.unicode s)⟩
      | none => ⟨[.decode_utf8 bs],
          .error (PYCBC_EXC_WRAP .ENCODING 0 "Couldn't decode as UTF-8")⟩ := by
  rw [decode_value_primitive E conn _ _ htc hpt, decode_common_utf8 E _ _ hsel,
    convert_to_string_utf8_only]

/-- C10, the claim as stated fails: decoding the single byte FF under the flag
word `FMT_UTF8` fails with the encoding error "Couldn't decode as UTF-8", and
no object is attached to that error: the byte string FF is not among its
attached objects.  This holds in both sample builds. -/
theorem c10_counterexample :
    (pycbc_tc_decode_value envBits connPlain [0xFF] envBits.PYCBC_FMT_UTF8).result
      = .error (.pycbc .ENCODING 0 "Couldn't decode as UTF-8" Option.none Option.none) ∧
    (PyObj.bytes [0xFF]) ∉
      (PyErr.pycbc .ENCODING 0 "Couldn't decode as UTF-8" Option.none Option.none).attached ∧
    (pycbc_tc_decode_value envZero connPlain [0xFF] envZero.PYCBC_FMT_UTF8).result
      = .error (.pycbc .ENCODING 0 "Couldn't decode as UTF-8" Option.none Option.none) := by
  decide

/-- C10, amended: strict UTF-8 decode failure.  With no transcoder and
passthrough off, for every byte sequence and every flag word that selects
Utf8, `decode_value` fails if and only if the bytes are not valid UTF-8; the
failure is the encoding error with message "Couldn't decode as UTF-8", raised
with no object attached; when the bytes are the UTF-8 encoding of a text, the
result is that text. -/
theorem c10_strict_utf8_decode (E : Env) (conn : Connection) (bs : List Nat) (flags : Nat)
    (htc : conn.tc = none) (hpt : conn.data_passthrough = false)
    (hsel : flags &&& E.PYCBC_FMT_UTF8 = E.PYCBC_FMT_UTF8) :
    ((∃ e, (pycbc_tc_decode_value E conn bs flags).result = .error e) ↔ ¬ ValidUTF8 bs) ∧
    (∀ e, (pycbc_tc_decode_value E conn bs flags).result = .error e →
      e.kind? = some .ENCODING ∧ e.msg? = some "Couldn't decode as UTF-8" ∧
      e.attached = []) ∧
    (∀ s : String, utf8Encode s = bs →
      (pycbc_tc_decode_value E conn bs flags).result = .ok (.unicode s)) := by
  rw [decode_value_utf8 E conn bs flags htc hpt hsel]
  cases hd : utf8Decode bs with
  | none =>
    have hinv := (utf8Decode_eq_none_iff bs).mp hd
    refine ⟨⟨fun _ => hinv, fun _ => ⟨_, rfl⟩⟩, ?_, ?_⟩
    · intro e he
      simp only [Res.error.injEq] at he
      subst he
      exact ⟨rfl, rfl, rfl⟩
    · intro s hs
      exact absurd ⟨s, hs⟩ hinv
  | some t =>
    have hv : ValidUTF8 bs := ⟨t, utf8Decode_sound bs t hd⟩
    refine ⟨⟨fun ⟨_, he⟩ => (nomatch he), fun h => absurd hv h⟩, ?_, ?_⟩
    · intro e he
      cases he
    · intro s hs
      subst hs
      rw [utf8Decode_encode] at hd
      cases hd
      rfl

/-- C10 amended, at concrete inputs: under `FMT_UTF8` the byte FF is not
valid UTF-8 and fails with nothing attached, while the bytes of "héllo"
decode to "héllo". -/
theorem c10_strict_utf8_decode_witness :
    (((∃ e, (pycbc_tc_decode_value envBits connPlain [0xFF] 4).result = .error e)
        ↔ ¬ ValidUTF8 [0xFF]) ∧
      (∀ e, (pycbc_tc_decode_value envBits connPlain [0xFF] 4).result = .error e →
        e.kind? = some .ENCODING ∧ e.msg? = some "Couldn't decode as UTF-8" ∧
        e.attached = []) ∧
      (∀ s : String, utf8Encode s = [0xFF] →
        (pycbc_tc_decode_value envBits connPlain [0xFF] 4).result = .ok (.unicode s))) ∧
    (pycbc_tc_decode_value envBits connPlain [0x68, 0xC3, 0xA9, 0x6C, 0x6C, 0x6F] 4).result
      = .ok (.unicode "héllo") :=
  ⟨c10_strict_utf8_decode envBits connPlain [0xFF] 4 rfl rfl (by decide),
   (c10_strict_utf8_decode envBits connPlain [0x68, 0xC3, 0xA9, 0x6C, 0x6C, 0x6F] 4 rfl rfl
      (by decide)).2.2 "héllo" (by decide)⟩

/-! ## Claims C11 to C19 -/

theorem decode_common_eq_codec (E : Env) (buf : List Nat) (flags : Nat) :
    decode_common E buf flags = decode_codec E buf (decode_select E flags) := by
  unfold decode_common decode_select
  by_cases h1 : flags &&& E.PYCBC_FMT_UTF8 = E.PYCBC_FMT_UTF8
  · rw [if_pos h1, if_pos h1]; rfl
  · rw [if_neg h1, if_neg h1]
    by_cases h2 : flags &&& E.PYCBC_FMT_BYTES = E.PYCBC_FMT_BYTES
    · rw [if_pos h2, if_pos h2]; rfl
    · rw [if_neg h2, if_neg h2]
      by_cases h3 : flags &&& E.PYCBC_FMT_PICKLE = E.PYCBC_FMT_PICKLE
      · rw [if_pos h3, if_pos h3]; rfl
      · rw [if_neg h3, if_neg h3]
        by_cases h4 : flags &&& E.PYCBC_FMT_JSON = E.PYCBC_FMT_JSON
        · rw [if_pos h4, if_pos h4]; rfl
        · rw [if_neg h4, if_neg h4]; rfl

theorem encode_common_buffer_kind (o : PyObj) (e : PyErr)
    (h : encode_common_buffer o = .error e) : e.kind? = some .ENCODING := by
  unfold encode_common_buffer at h
  cases o <;> simp only [PyBytes_AsStringAndSize] at h <;> cases h <;> rfl

/-- The UTF8 branch of `encode_common` on the exact flag word `FMT_UTF8`. -/
theorem encode_common_utf8 (E : Env) (o : PyObj) :
    encode_common E o E.PYCBC_FMT_UTF8 = encode_codec E o (some .Utf8) := by
  rw [encode_common_eq_codec]
  simp only [encode_select, Nat.and_self, if_true]

/-- The BYTES branch of `encode_common` on the exact flag word `FMT_BYTES`. -/
theorem encode_common_bytes (E : Env)
    (hsep : E.PYCBC_FMT_BYTES &&& E.PYCBC_FMT_UTF8 ≠ E.PYCBC_FMT_UTF8) (o : PyObj) :
    encode_common E o E.PYCBC_FMT_BYTES = encode_codec E o (some .Bytes) := by
  rw [encode_common_eq_codec]
  simp only [encode_select, if_neg hsep, Nat.and_self, if_true]

/-- What `PyUnicode_AsUTF8String` returns, when it returns an object, is a
byte string. -/
theorem PyUnicode_AsUTF8String_bytes (major : Nat) (o r : PyObj)
    (h : PyUnicode_AsUTF8String major o = some r) : ∃ b : List Nat, r = .bytes b := by
  cases o <;> simp only [PyUnicode_AsUTF8String] at h <;> try cases h
  · exact ⟨_, rfl⟩
  · split_ifs at h <;> cases h <;> exact ⟨_, rfl⟩

/-- The Utf8 codec on a value that passes the guard of lines 84-95: no
foreign call, and no error is raised (the outcome is a value, or the crash
on an untested `NULL`). -/
theorem encode_codec_utf8_guard (E : Env) (o : PyObj)
    (hc : PyUnicode_Check o = true ∨ (E.PY_MAJOR_VERSION = 2 ∧ PyString_Check o = true)) :
    (encode_codec E o (some .Utf8)).events = [] ∧
    ∀ e, (encode_codec E o (some .Utf8)).result ≠ .error e := by
  unfold encode_codec
  by_cases h2 : E.PY_MAJOR_VERSION = 2 ∧ PyString_Check o = true
  · rw [if_pos h2]
    refine ⟨rfl, fun e he => ?_⟩
    obtain ⟨_, hs⟩ := h2
    cases o <;> simp [PyString_Check, PyBytes_Check] at hs
    simp [encode_common_buffer, PyBytes_AsStringAndSize] at he
  · rw [if_neg h2]
    have hu : PyUnicode_Check o = true := hc.resolve_right h2
    rw [if_pos hu]
    cases hr : PyUnicode_AsUTF8String E.PY_MAJOR_VERSION o with
    | none => exact ⟨rfl, fun e he => nomatch he⟩
    | some r =>
      obtain ⟨b, rfl⟩ := PyUnicode_AsUTF8String_bytes _ _ _ hr
      refine ⟨rfl, fun e he => ?_⟩
      simp [encode_common_buffer, PyBytes_AsStringAndSize] at he

/-- The Utf8 codec on a value that fails the guard of lines 84-95. -/
theorem encode_codec_utf8_noguard (E : Env) (o : PyObj)
    (hc : ¬ (PyUnicode_Check o = true ∨ (E.PY_MAJOR_VERSION = 2 ∧ PyString_Check o = true))) :
    encode_codec E o (some .Utf8) =
      ⟨[], .error (PYCBC_EXC_WRAP_OBJ .ENCODING 0 "Must be unicode or string" o)⟩ := by
  unfold encode_codec
  have h2 : ¬ (E.PY_MAJOR_VERSION = 2 ∧ PyString_Check o = true) := fun h => hc (Or.inr h)
  have hu : ¬ (PyUnicode_Check o = true) := fun h => hc (Or.inl h)
  rw [if_neg h2, if_neg hu]

/-- Outcome of the Bytes codec by the kind of the value. -/
theorem encode_codec_bytes (E : Env) (o : PyObj) :
    encode_codec E o (some .Bytes) =
      match o.byteContent with
      | some b => ⟨[], .ok ⟨o, b⟩⟩
      | none => ⟨[], .error (PYCBC_EXC_WRAP_OBJ .ENCODING 0 "Must be bytes or bytearray" o)⟩ := by
  cases o <;>
    simp [encode_codec, PyBytes_Check, PyByteArray_Check, PyObj.byteContent,
      encode_common_buffer, PyBytes_AsStringAndSize]

/-- The result of the primitive `encode_value` is an error exactly when the
result of `encode_common` is, with the same error; the foreign calls are the
same. -/
theorem encode_value_primitive_error (E : Env) (conn : Connection) (v hint : PyObj) (f : Nat)
    (htc : conn.tc = none) (hne : hint ≠ E.pycbc_helpers.fmt_auto)
    (hf : pycbc_get_u32 hint = some f) :
    (pycbc_tc_encode_value E conn v (some hint)).events = (encode_common E v f).events ∧
    (∀ e, (pycbc_tc_encode_value E conn v (some hint)).result = .error e ↔
      (encode_common E v f).result = .error e) := by
  rw [encode_value_primitive E conn v hint f htc hne hf]
  cases hr : (encode_common E v f).result with
  | crash => exact ⟨rfl, fun e => by simp⟩
  | error e0 => exact ⟨rfl, fun e => by simp⟩
  | ok enc => exact ⟨rfl, fun e => by simp⟩

/-- C11: encode type guards.  With no transcoder attached, for every value
`v`: `encode_value(v, FMT_UTF8)` fails if and only if `v` is neither a text
nor, on a Python 2 build, a legacy byte string, and the failure is the
encoding error "Must be unicode or string" with `v` attached;
`encode_value(v, FMT_BYTES)` fails if and only if `v` is neither a byte string
nor a byte array, and the failure is the encoding error "Must be bytes or
bytearray" with `v` attached.  Neither call makes any foreign call, so neither
calls the JSON or pickle helper.  The two constants are assumed to be 32-bit
values, `FMT_BYTES` not carrying the UTF8 bits, and the Auto sentinel not to
be a flag integer. -/
theorem c11_encode_type_guards (E : Env) (conn : Connection)
    (htc : conn.tc = none) (h32 : E.Fits32)
    (hsep : E.PYCBC_FMT_BYTES &&& E.PYCBC_FMT_UTF8 ≠ E.PYCBC_FMT_UTF8)
    (hauto : pycbc_get_u32 E.pycbc_helpers.fmt_auto = none) (v : PyObj) :
    (((∃ e, (pycbc_tc_encode_value E conn v (some (.int E.PYCBC_FMT_UTF8))).result
        = .error e) ↔
      ¬ (PyUnicode_Check v = true ∨ (E.PY_MAJOR_VERSION = 2 ∧ PyString_Check v = true))) ∧
     (∀ e, (pycbc_tc_encode_value E conn v (some (.int E.PYCBC_FMT_UTF8))).result
        = .error e →
      e.kind? = some .ENCODING ∧ e.msg? = some "Must be unicode or string" ∧
      e.attached = [v]) ∧
     (pycbc_tc_encode_value E conn v (some (.int E.PYCBC_FMT_UTF8))).events = []) ∧
    (((∃ e, (pycbc_tc_encode_value E conn v (some (.int E.PYCBC_FMT_BYTES))).result
        = .error e) ↔
      ¬ (PyBytes_Check v = true ∨ PyByteArray_Check v = true)) ∧
     (∀ e, (pycbc_tc_encode_value E conn v (some (.int E.PYCBC_FMT_BYTES))).result
        = .error e →
      e.kind? = some .ENCODING ∧ e.msg? = some "Must be bytes or bytearray" ∧
      e.attached = [v]) ∧
     (pycbc_tc_encode_value E conn v (some (.int E.PYCBC_FMT_BYTES))).events = []) := by
  have hU : E.PYCBC_FMT_UTF8 < 4294967296 := h32 .Utf8
  have hB : E.PYCBC_FMT_BYTES < 4294967296 := h32 .Bytes
  obtain ⟨evU, errU⟩ := encode_value_primitive_error E conn v _ _ htc
    (int_ne_auto E hauto _ hU) (pycbc_get_u32_int _ hU)
  obtain ⟨evB, errB⟩ := encode_value_primitive_error E conn v _ _ htc
    (int_ne_auto E hauto _ hB) (pycbc_get_u32_int _ hB)
  simp only [errU, errB, evU, evB]
  rw [encode_common_utf8, encode_common_bytes E hsep, encode_codec_bytes]
  constructor
  · by_cases hc : PyUnicode_Check v = true ∨ (E.PY_MAJOR_VERSION = 2 ∧ PyString_Check v = true)
    · obtain ⟨hev, hne⟩ := encode_codec_utf8_guard E v hc
      exact ⟨⟨fun ⟨e, h⟩ => absurd h (hne e), fun h => absurd hc h⟩,
        fun e h => absurd h (hne e), hev⟩
    · rw [encode_codec_utf8_noguard E v hc]
      refine ⟨⟨fun _ => hc, fun _ => ⟨_, rfl⟩⟩, ?_, rfl⟩
      intro e he
      simp only [Res.error.injEq] at he
      subst he
      exact ⟨rfl, rfl, rfl⟩
  · cases hb : v.byteContent with
    | some b =>
      have hc : PyBytes_Check v = true ∨ PyByteArray_Check v = true := by
        cases v <;> simp [PyObj.byteContent, PyBytes_Check, PyByteArray_Check] at hb ⊢
      exact ⟨⟨fun ⟨_, h⟩ => (nomatch h), fun h => absurd hc h⟩, fun _ h => (nomatch h), rfl⟩
    | none =>
      have hc : ¬ (PyBytes_Check v = true ∨ PyByteArray_Check v = true) := by
        cases v <;> simp [PyObj.byteContent, PyBytes_Check, PyByteArray_Check] at hb ⊢
      refine ⟨⟨fun _ => hc, fun _ => ⟨_, rfl⟩⟩, ?_, rfl⟩
      intro e he
      simp only [Res.error.injEq] at he
      subst he
      exact ⟨rfl, rfl, rfl⟩

/-- C11 at a concrete build: the integer 5 fails both guards with the
messages of the claim and itself attached, and no foreign call is made. -/
theorem c11_encode_type_guards_witness :
    (pycbc_tc_encode_value envBits connPlain (.int 5) (some (.int 4)) =
      ⟨[], .error (.pycbc .ENCODING 0 "Must be unicode or string" Option.none
        (some (.int 5)))⟩ ∧
     pycbc_tc_encode_value envBits connPlain (.int 5) (some (.int 2)) =
      ⟨[], .error (.pycbc .ENCODING 0 "Must be bytes or bytearray" Option.none
        (some (.int 5)))⟩) ∧
    ((∃ e, (pycbc_tc_encode_value envBits connPlain (.int 5) (some (.int 4))).result
        = .error e) ↔
      ¬ (PyUnicode_Check (.int 5) = true ∨
        (envBits.PY_MAJOR_VERSION = 2 ∧ PyString_Check (.int 5) = true))) :=
  ⟨by decide,
   (c11_encode_type_guards envBits connPlain rfl envBits_fits32 (by decide) (by decide)
      (.int 5)).1.1⟩

theorem encode_select_eq_none (E : Env) (f : Nat) :
    encode_select E f = none ↔ ∀ F : Format, f &&& E.fmt F ≠ E.fmt F := by
  constructor
  · intro h F
    unfold encode_select at h
    split_ifs at h with h1 h2 h3 h4
    cases F
    · exact h1
    · exact h2
    · exact h4
    · exact h3
  · intro h
    have h1 := h .Utf8
    have h2 := h .Bytes
    have h3 := h .Pickle
    have h4 := h .Json
    simp only [Env.fmt] at h1 h2 h3 h4
    simp only [encode_select, if_neg h1, if_neg h2, if_neg h3, if_neg h4]

theorem decode_select_eq_encode_select (E : Env) (f : Nat) :
    decode_select E f = encode_select E f := rfl

/-- A flag word with no bit inside the mask carries no format, when every
format constant is nonzero and lies inside the mask. -/
theorem unrecognized_of_mask_zero (E : Env) (hnz : E.NonzeroFormats) (hmask : E.MaskCovers)
    (f : Nat) (hz : f &&& E.PYCBC_FMT_MASK = 0) (F : Format) :
    f &&& E.fmt F ≠ E.fmt F := by
  rw [← and_mask_and f _ _ (hmask F), hz, Nat.zero_and]
  exact fun h => hnz F h.symm

/-- C12: unrecognized flags fall back to bytes on decode.  With no transcoder
and passthrough off, for every byte sequence and every stored flag word that
carries none of the four format constants, `decode_value` succeeds with the
byte string of the input bytes, and all it does besides is emit the warning
"Unrecognized flags. Forcing bytes": no helper is called.  When every format
constant is nonzero and inside the mask, this covers every flag word whose
`FMT_MASK` bits are all zero, so also every word with only high bits set. -/
theorem c12_unrecognized_flags_fall_back (E : Env) (conn : Connection)
    (htc : conn.tc = none) (hpt : conn.data_passthrough = false)
    (bs : List Nat) (flags : Nat) :
    ((∀ F : Format, flags &&& E.fmt F ≠ E.fmt F) →
      pycbc_tc_decode_value E conn bs flags =
        ⟨[.warn "Unrecognized flags. Forcing bytes"], .ok (.bytes bs)⟩) ∧
    (E.NonzeroFormats → E.MaskCovers → flags &&& E.PYCBC_FMT_MASK = 0 →
      pycbc_tc_decode_value E conn bs flags =
        ⟨[.warn "Unrecognized flags. Forcing bytes"], .ok (.bytes bs)⟩) := by
  have key : (∀ F : Format, flags &&& E.fmt F ≠ E.fmt F) →
      pycbc_tc_decode_value E conn bs flags =
        ⟨[.warn "Unrecognized flags. Forcing bytes"], .ok (.bytes bs)⟩ := by
    intro h
    rw [decode_value_primitive E conn _ _ htc hpt, decode_common_eq_codec,
      decode_select_eq_encode_select, (encode_select_eq_none E flags).mpr h]
    simp only [decode_codec, convert_to_string_bytes_only]
  exact ⟨key, fun hnz hmask hz => key (unrecognized_of_mask_zero E hnz hmask flags hz)⟩

/-- C12 at a concrete build with one bit per format: the flag word 0 and the
flag word 0xABCD0000, which has only high bits set, both decode the bytes
FF 00 to themselves with the warning. -/
theorem c12_unrecognized_flags_fall_back_witness :
    pycbc_tc_decode_value envBits connPlain [0xFF, 0x00] 0 =
      ⟨[.warn "Unrecognized flags. Forcing bytes"], .ok (.bytes [0xFF, 0x00])⟩ ∧
    pycbc_tc_decode_value envBits connPlain [0xFF, 0x00] 0xABCD0000 =
      ⟨[.warn "Unrecognized flags. Forcing bytes"], .ok (.bytes [0xFF, 0x00])⟩ :=
  ⟨(c12_unrecognized_flags_fall_back envBits connPlain rfl rfl [0xFF, 0x00] 0).1
      (by decide),
   (c12_unrecognized_flags_fall_back envBits connPlain rfl rfl [0xFF, 0x00] 0xABCD0000).2
      (by decide) envBits_maskCovers (by decide)⟩

theorem convert_to_bytesobj_error_kind (major : Nat) (o : PyObj) (x : PyErr)
    (h : convert_to_bytesobj major o = .error x) : x.kind? = some .ENCODING := by
  unfold convert_to_bytesobj at h
  split at h
  · cases h
  · cases h
    rfl

theorem encode_common_helper_error_kind (major : Nat) (fn : HelperId)
    (helper : PyObj → Except PyObj PyObj) (o : PyObj) (e : PyErr)
    (h : (encode_common_helper major fn helper o).result = .error e) :
    e.kind? = some .ENCODING := by
  unfold encode_common_helper at h
  cases hh : helper o with
  | error x =>
    simp only [hh, Res.error.injEq] at h
    subst h; rfl
  | ok r =>
    simp only [hh] at h
    by_cases hb : PyBytes_Check r = true
    · rw [if_pos hb] at h
      exact encode_common_buffer_kind _ _ h
    · rw [if_neg hb] at h
      cases hc : convert_to_bytesobj major r with
      | error x =>
        simp only [hc, Res.error.injEq] at h
        subst h
        exact convert_to_bytesobj_error_kind major r _ hc
      | ok c =>
        simp only [hc] at h
        exact encode_common_buffer_kind _ _ h

/-- Every error of a format codec is an encoding error. -/
theorem encode_codec_error_kind (E : Env) (o : PyObj) (F : Format) (e : PyErr)
    (h : (encode_codec E o (some F)).result = .error e) : e.kind? = some .ENCODING := by
  cases F with
  | Utf8 =>
    by_cases hc : PyUnicode_Check o = true ∨
        (E.PY_MAJOR_VERSION = 2 ∧ PyString_Check o = true)
    · exact absurd h ((encode_codec_utf8_guard E o hc).2 e)
    · rw [encode_codec_utf8_noguard E o hc] at h
      simp only [Res.error.injEq] at h
      subst h; rfl
  | Bytes =>
    rw [encode_codec_bytes] at h
    cases hb : o.byteContent with
    | some b => simp [hb] at h
    | none =>
      simp only [hb, Res.error.injEq] at h
      subst h; rfl
  | Json => exact encode_common_helper_error_kind _ _ _ _ _ h
  | Pickle => exact encode_common_helper_error_kind _ _ _ _ _ h

/-- C13: unrecognized format is an argument error on encode.  With no
transcoder attached, for every value and every hint that coerces to the
32-bit value `f`: if `f` carries none of the four format constants,
`encode_value` fails with the argument error "Unrecognized format" and makes
no foreign call; conversely, if `encode_value` fails with an argument error
at all, then `f` carries none of the four format constants.  When every
format constant is nonzero and inside the mask, the first part covers every
hint whose `FMT_MASK` bits are all zero.  The Auto sentinel is assumed not to
be a flag integer. -/
theorem c13_unrecognized_format_argument_error (E : Env) (conn : Connection)
    (htc : conn.tc = none) (hauto : pycbc_get_u32 E.pycbc_helpers.fmt_auto = none)
    (v hint : PyObj) (f : Nat) (hf : pycbc_get_u32 hint = some f) :
    ((∀ F : Format, f &&& E.fmt F ≠ E.fmt F) →
      pycbc_tc_encode_value E conn v (some hint) =
        ⟨[], .error (.pycbc .ARGUMENTS 0 "Unrecognized format" Option.none Option.none)⟩) ∧
    (E.NonzeroFormats → E.MaskCovers → f &&& E.PYCBC_FMT_MASK = 0 →
      pycbc_tc_encode_value E conn v (some hint) =
        ⟨[], .error (.pycbc .ARGUMENTS 0 "Unrecognized format" Option.none Option.none)⟩) ∧
    (∀ e, (pycbc_tc_encode_value E conn v (some hint)).result = .error e →
      e.kind? = some .ARGUMENTS →
      (∀ F : Format, f &&& E.fmt F ≠ E.fmt F) ∧
      e.msg? = some "Unrecognized format") := by
  have hne := get_u32_ne_auto E hauto hint f hf
  have key : (∀ F : Format, f &&& E.fmt F ≠ E.fmt F) →
      pycbc_tc_encode_value E conn v (some hint) =
        ⟨[], .error (.pycbc .ARGUMENTS 0 "Unrecognized format" Option.none Option.none)⟩ := by
    intro h
    rw [encode_value_primitive E conn v hint f htc hne hf, encode_common_eq_codec,
      (encode_select_eq_none E f).mpr h]
    rfl
  refine ⟨key, fun hnz hmask hz => key (unrecognized_of_mask_zero E hnz hmask f hz), ?_⟩
  intro e he hk
  rw [(encode_value_primitive_error E conn v hint f htc hne hf).2 e,
    encode_common_eq_codec] at he
  cases hs : encode_select E f with
  | none =>
    rw [hs] at he
    simp only [encode_codec, Res.error.injEq] at he
    subst he
    exact ⟨(encode_select_eq_none E f).mp hs, rfl⟩
  | some F =>
    rw [hs] at he
    have := encode_codec_error_kind E v F e he
    rw [this] at hk
    cases hk

/-- C13 at a concrete build with one bit per format: the hint 0xABCD0000
carries no format constant and fails with the argument error, no call made;
the hint 4 on an integer fails too, but not with an argument error. -/
theorem c13_unrecognized_format_argument_error_witness :
    pycbc_tc_encode_value envBits connPlain (.unicode "a") (some (.int 0xABCD0000)) =
      ⟨[], .error (.pycbc .ARGUMENTS 0 "Unrecognized format" Option.none Option.none)⟩ ∧
    pycbc_tc_encode_value envBits connPlain (.unicode "a") (some (.int 0)) =
      ⟨[], .error (.pycbc .ARGUMENTS 0 "Unrecognized format" Option.none Option.none)⟩ :=
  ⟨(c13_unrecognized_format_argument_error envBits connPlain rfl (by decide)
      (.unicode "a") (.int 0xABCD0000) 0xABCD0000 (by decide)).1 (by decide),
   (c13_unrecognized_format_argument_error envBits connPlain rfl (by decide)
      (.unicode "a") (.int 0) 0 (by decide)).2.1 (by decide) envBits_maskCovers
      (by decide)⟩

/-- The transcoder path of `pycbc_tc_encode_key` when the method exists and
returns `r`. -/
theorem encode_key_tc_returned (E : Env) (conn : Connection) (tc : Transcoder)
    (htc : conn.tc = some tc) (k r : PyObj) (meth : List PyObj → Except PyObj PyObj)
    (hget : tc.getattr E.pycbc_helpers.tcname_encode_key = some meth)
    (hcall : meth [k] = .ok r) :
    pycbc_tc_encode_key E conn k =
      match PyBytes_AsStringAndSize r with
      | none =>
        ⟨[.tc_method E.pycbc_helpers.tcname_encode_key [k]],
          .error (PYCBC_EXC_WRAP_KEY .ENCODING 0
            ("Couldn't convert encoded key to bytes. It is " ++
             "possible that the Transcoder.encode_key method " ++
             "returned an unexpected value") r)⟩
      | some b =>
        if b.length = 0 then
          ⟨[.tc_method E.pycbc_helpers.tcname_encode_key [k]],
            .error (PYCBC_EXC_WRAP_KEY .ENCODING 0
              "Transcoder.encode_key returned an empty string" r)⟩
        else
          ⟨[.tc_method E.pycbc_helpers.tcname_encode_key [k]], .ok ⟨r, b⟩⟩ := by
  unfold pycbc_tc_encode_key
  simp only [htc, do_call_tc, tc_args, strlookup, hget, hcall]

theorem key_not_bytes_msg :
    ("Couldn't convert encoded key to bytes. It is " ++
     "possible that the Transcoder.encode_key method " ++
     "returned an unexpected value") =
    "Couldn't convert encoded key to bytes" ++
      ". It is possible that the Transcoder.encode_key method returned an unexpected value" := by
  decide

/-- C14: transcoder `encode_key` results are validated.  With a transcoder
attached, whenever its `encode_key` method, called on the key, returns a
value `r`: `encode_key` succeeds if and only if `r` is a byte string of
length above 0, and then the encoded key is exactly the bytes of `r`, owned
by `r`; if `r` is a byte string of length 0 it fails with the encoding error
"Transcoder.encode_key returned an empty string"; if `r` is anything but a
byte string it fails with the encoding error whose message starts "Couldn't
convert encoded key to bytes"; in both failures `r` is attached to the
error. -/
theorem c14_encode_key_result_validated (E : Env) (conn : Connection) (tc : Transcoder)
    (htc : conn.tc = some tc) (k r : PyObj) (meth : List PyObj → Except PyObj PyObj)
    (hget : tc.getattr E.pycbc_helpers.tcname_encode_key = some meth)
    (hcall : meth [k] = .ok r) :
    ((∃ out, (pycbc_tc_encode_key E conn k).result = .ok out) ↔
      ∃ b : List Nat, r = .bytes b ∧ 0 < b.length) ∧
    (∀ b : List Nat, r = .bytes b → 0 < b.length →
      (pycbc_tc_encode_key E conn k).result = .ok ⟨r, b⟩) ∧
    (r = .bytes [] →
      ∃ e, (pycbc_tc_encode_key E conn k).result = .error e ∧
        e.kind? = some .ENCODING ∧
        e.msg? = some "Transcoder.encode_key returned an empty string" ∧
        e.attached = [r]) ∧
    (PyBytes_Check r = false →
      ∃ e rest, (pycbc_tc_encode_key E conn k).result = .error e ∧
        e.kind? = some .ENCODING ∧
        e.msg? = some ("Couldn't convert encoded key to bytes" ++ rest) ∧
        e.attached = [r]) := by
  rw [encode_key_tc_returned E conn tc htc k r meth hget hcall]
  cases r with
  | bytes b =>
    simp only [PyBytes_AsStringAndSize]
    by_cases hl : b.length = 0
    · have hb : b = [] := List.length_eq_zero.mp hl
      subst hb
      refine ⟨⟨fun ⟨_, h⟩ => (nomatch h), fun ⟨b', hb', hpos⟩ => ?_⟩, ?_, ?_, ?_⟩
      · cases hb'
        exact absurd hpos (by decide)
      · intro b' hb' hpos
        cases hb'
        exact absurd hpos (by decide)
      · intro _
        exact ⟨_, rfl, rfl, rfl, rfl⟩
      · intro h
        simp [PyBytes_Check] at h
    · rw [if_neg hl]
      refine ⟨⟨fun _ => ⟨b, rfl, Nat.pos_of_ne_zero hl⟩, fun _ => ⟨_, rfl⟩⟩, ?_, ?_, ?_⟩
      · intro b' hb' _
        cases hb'
        rfl
      · intro h
        cases h
        exact absurd rfl hl
      · intro h
        simp [PyBytes_Check] at h
  | _ =>
    simp only [PyBytes_AsStringAndSize]
    refine ⟨⟨fun ⟨_, h⟩ => (nomatch h), fun ⟨_, h, _⟩ => (nomatch h)⟩,
      fun _ h => (nomatch h), fun h => (nomatch h), fun _ => ?_⟩
    exact ⟨_, ". It is possible that the Transcoder.encode_key method returned an unexpected value",
      rfl, rfl, congrArg some key_not_bytes_msg, rfl⟩

/-- C14 at a concrete connection: the key "k" is encoded to the byte 6B; the
key "", for which the transcoder returns an empty byte string, the key "u",
for which it returns a text, and the key "a", for which it returns a byte
array, all fail with the return value attached. -/
theorem c14_encode_key_result_validated_witness :
    ((∃ out, (pycbc_tc_encode_key envBits connKeys (.unicode "k")).result = .ok out) ↔
      ∃ b : List Nat, PyObj.bytes [0x6B] = .bytes b ∧ 0 < b.length) ∧
    (pycbc_tc_encode_key envBits connKeys (.unicode "k")).result
      = .ok ⟨.bytes [0x6B], [0x6B]⟩ ∧
    (pycbc_tc_encode_key envBits connKeys (.unicode "")).result
      = .error (.pycbc .ENCODING 0 "Transcoder.encode_key returned an empty string"
          (some (.bytes [])) Option.none) ∧
    (∃ e rest, (pycbc_tc_encode_key envBits connKeys (.unicode "u")).result = .error e ∧
      e.kind? = some .ENCODING ∧
      e.msg? = some ("Couldn't convert encoded key to bytes" ++ rest) ∧
      e.attached = [.unicode "u"]) ∧
    (∃ e rest, (pycbc_tc_encode_key envBits connKeys (.unicode "a")).result = .error e ∧
      e.kind? = some .ENCODING ∧
      e.msg? = some ("Couldn't convert encoded key to bytes" ++ rest) ∧
      e.attached = [.bytearray [0x61]]) :=
  ⟨(c14_encode_key_result_validated envBits connKeys tcKeys rfl (.unicode "k")
      (.bytes [0x6B]) _ rfl rfl).1,
   (c14_encode_key_result_validated envBits connKeys tcKeys rfl (.unicode "k")
      (.bytes [0x6B]) _ rfl rfl).2.1 [0x6B] rfl (by decide),
   by decide,
   (c14_encode_key_result_validated envBits connKeys tcKeys rfl (.unicode "u")
      (.unicode "u") _ rfl rfl).2.2.2 rfl,
   (c14_encode_key_result_validated envBits connKeys tcKeys rfl (.unicode "a")
      (.bytearray [0x61]) _ rfl rfl).2.2.2 rfl⟩

/-- The transcoder path of `pycbc_tc_encode_value` when the method exists and
returns a pair. -/
theorem encode_value_tc_pair (E : Env) (conn : Connection) (tc : Transcoder)
    (htc : conn.tc = some tc) (v hint new_value flags_obj : PyObj)
    (meth : List PyObj → Except PyObj PyObj)
    (hget : tc.getattr E.pycbc_helpers.tcname_encode_value = some meth)
    (hcall : meth [v, hint] = .ok (.tuple (.cons new_value (.cons flags_obj .nil)))) :
    pycbc_tc_encode_value E conn v (some hint) =
      ⟨[.tc_method E.pycbc_helpers.tcname_encode_value [v, hint]],
        match pycbc_get_u32 flags_obj with
        | none =>
          .error (PYCBC_EXC_WRAP_VALUE .ENCODING 0
            ("Transcoder.encode_value() returned a bad " ++
             "value for flags") v)
        | some flags_stackval =>
          match PyBytes_AsStringAndSize new_value with
          | none =>
            .error (PYCBC_EXC_WRAP_VALUE .ENCODING 0
              ("Value returned by Transcoder.encode_value() " ++
               "could not be converted to bytes") v)
          | some b => .ok ⟨new_value, b, flags_stackval⟩⟩ := by
  unfold pycbc_tc_encode_value
  simp only [htc, do_call_tc, tc_args, strlookup, Option.map_some', hget, hcall]
  cases pycbc_get_u32 flags_obj with
  | none => rfl
  | some w => cases PyBytes_AsStringAndSize new_value <;> rfl

/-- The transcoder path of `pycbc_tc_encode_value` when the method exists and
returns something that is not a pair. -/
theorem encode_value_tc_not_pair (E : Env) (conn : Connection) (tc : Transcoder)
    (htc : conn.tc = some tc) (v hint r : PyObj)
    (meth : List PyObj → Except PyObj PyObj)
    (hget : tc.getattr E.pycbc_helpers.tcname_encode_value = some meth)
    (hcall : meth [v, hint] = .ok r)
    (hr : ∀ a fl : PyObj, r ≠ .tuple (.cons a (.cons fl .nil))) :
    pycbc_tc_encode_value E conn v (some hint) =
      ⟨[.tc_method E.pycbc_helpers.tcname_encode_value [v, hint]],
        .error (PYCBC_EXC_WRAP_EX .ENCODING 0
          "Expected return of (bytes, flags)" (some v) (some r))⟩ := by
  unfold pycbc_tc_encode_value
  simp only [htc, do_call_tc, tc_args, strlookup, Option.map_some', hget]
  generalize meth [v, hint] = x at hcall
  subst hcall
  simp only

theorem bad_flags_msg :
    ("Transcoder.encode_value() returned a bad " ++ "value for flags") =
    "Transcoder.encode_value() " ++ "returned a bad value for flags" := by
  decide

/-- What `pycbc_get_u32` rejects: a negative integer, an integer above
2^32-1, and anything that is not an integer. -/
theorem pycbc_get_u32_rejects :
    (∀ n : Int, n < 0 → pycbc_get_u32 (.int n) = none) ∧
    (∀ n : Int, 4294967295 < n → pycbc_get_u32 (.int n) = none) ∧
    (∀ o : PyObj, (∀ n : Int, o ≠ .int n) → pycbc_get_u32 o = none) := by
  refine ⟨?_, ?_, ?_⟩
  · intro n hn
    have : ¬ (0 ≤ n ∧ n < 4294967296) := by omega
    simp only [pycbc_get_u32, if_neg this]
  · intro n hn
    have : ¬ (0 ≤ n ∧ n < 4294967296) := by omega
    simp only [pycbc_get_u32, if_neg this]
  · intro o ho
    cases o <;> first | rfl | exact absurd rfl (ho _)

/-- C15: transcoder `encode_value` results are validated.  With a transcoder
attached, whenever its `encode_value` method, called on the value and the
hint, returns a value `r`: `encode_value` succeeds if and only if `r` is a
pair whose first item is a byte string and whose second item converts to a
32-bit unsigned integer, and then it outputs those bytes and that integer; if
`r` is not a pair it fails with the encoding error "Expected return of (bytes,
flags)"; if `r` is a pair whose second item does not convert (a negative
integer, an integer above 2^32-1, a non-integer) it fails with the encoding
error whose message ends "returned a bad value for flags"; if `r` is a pair
whose first item is not a byte string it fails with an encoding error. -/
theorem c15_encode_value_result_validated (E : Env) (conn : Connection) (tc : Transcoder)
    (htc : conn.tc = some tc) (v hint r : PyObj) (meth : List PyObj → Except PyObj PyObj)
    (hget : tc.getattr E.pycbc_helpers.tcname_encode_value = some meth)
    (hcall : meth [v, hint] = .ok r) :
    ((∃ out, (pycbc_tc_encode_value E conn v (some hint)).result = .ok out) ↔
      ∃ (b : List Nat) (fl : PyObj) (w : Nat),
        r = .tuple (.cons (.bytes b) (.cons fl .nil)) ∧ pycbc_get_u32 fl = some w) ∧
    (∀ (b : List Nat) (fl : PyObj) (w : Nat),
      r = .tuple (.cons (.bytes b) (.cons fl .nil)) → pycbc_get_u32 fl = some w →
      (pycbc_tc_encode_value E conn v (some hint)).result = .ok ⟨.bytes b, b, w⟩) ∧
    ((∀ a fl : PyObj, r ≠ .tuple (.cons a (.cons fl .nil))) →
      ∃ e, (pycbc_tc_encode_value E conn v (some hint)).result = .error e ∧
        e.kind? = some .ENCODING ∧ e.msg? = some "Expected return of (bytes, flags)") ∧
    (∀ a fl : PyObj, r = .tuple (.cons a (.cons fl .nil)) → pycbc_get_u32 fl = none →
      ∃ e, (pycbc_tc_encode_value E conn v (some hint)).result = .error e ∧
        e.kind? = some .ENCODING ∧
        e.msg? = some ("Transcoder.encode_value() " ++ "returned a bad value for flags")) ∧
    (∀ a fl : PyObj, r = .tuple (.cons a (.cons fl .nil)) → PyBytes_Check a = false →
      ∃ e, (pycbc_tc_encode_value E conn v (some hint)).result = .error e ∧
        e.kind? = some .ENCODING) := by
  have pair : ∀ a fl : PyObj, r = .tuple (.cons a (.cons fl .nil)) →
      (pycbc_tc_encode_value E conn v (some hint)).result =
        match pycbc_get_u32 fl with
        | none =>
          .error (PYCBC_EXC_WRAP_VALUE .ENCODING 0
            ("Transcoder.encode_value() returned a bad " ++
             "value for flags") v)
        | some flags_stackval =>
          match PyBytes_AsStringAndSize a with
          | none =>
            .error (PYCBC_EXC_WRAP_VALUE .ENCODING 0
              ("Value returned by Transcoder.encode_value() " ++
               "could not be converted to bytes") v)
          | some b => .ok ⟨a, b, flags_stackval⟩ := by
    intro a fl hr
    subst hr
    rw [encode_value_tc_pair E conn tc htc v hint a fl meth hget hcall]
  have notpair : (∀ a fl : PyObj, r ≠ .tuple (.cons a (.cons fl .nil))) →
      (pycbc_tc_encode_value E conn v (some hint)).result =
        .error (PYCBC_EXC_WRAP_EX .ENCODING 0
          "Expected return of (bytes, flags)" (some v) (some r)) := by
    intro hr
    rw [encode_value_tc_not_pair E conn tc htc v hint r meth hget hcall hr]
  have hgood : ∀ (b : List Nat) (fl : PyObj) (w : Nat),
      r = .tuple (.cons (.bytes b) (.cons fl .nil)) → pycbc_get_u32 fl = some w →
      (pycbc_tc_encode_value E conn v (some hint)).result = .ok ⟨.bytes b, b, w⟩ := by
    intro b fl w hr hw
    rw [pair _ _ hr, hw]
    rfl
  have hbadfl : ∀ a fl : PyObj, r = .tuple (.cons a (.cons fl .nil)) →
      pycbc_get_u32 fl = none →
      ∃ e, (pycbc_tc_encode_value E conn v (some hint)).result = .error e ∧
        e.kind? = some .ENCODING ∧
        e.msg? = some ("Transcoder.encode_value() " ++ "returned a bad value for flags") := by
    intro a fl hr hw
    rw [pair _ _ hr, hw]
    exact ⟨_, rfl, rfl, congrArg some bad_flags_msg⟩
  have hbadbytes : ∀ a fl : PyObj, r = .tuple (.cons a (.cons fl .nil)) →
      PyBytes_Check a = false →
      ∃ e, (pycbc_tc_encode_value E conn v (some hint)).result = .error e ∧
        e.kind? = some .ENCODING := by
    intro a fl hr ha
    rw [pair _ _ hr]
    have hn : PyBytes_AsStringAndSize a = none := by
      cases a <;> first | rfl | simp [PyBytes_Check] at ha
    cases pycbc_get_u32 fl with
    | none => exact ⟨_, rfl, rfl⟩
    | some w =>
      simp only [hn]
      exact ⟨_, rfl, rfl⟩
  refine ⟨⟨?_, fun ⟨b, fl, w, hr, hw⟩ => ⟨_, hgood b fl w hr hw⟩⟩, hgood, ?_, hbadfl,
    hbadbytes⟩
  · rintro ⟨out, hout⟩
    by_cases hp : ∃ a fl : PyObj, r = .tuple (.cons a (.cons fl .nil))
    · obtain ⟨a, fl, hr⟩ := hp
      cases hw : pycbc_get_u32 fl with
      | none =>
        obtain ⟨e, he, _⟩ := hbadfl a fl hr hw
        rw [he] at hout
        cases hout
      | some w =>
        by_cases ha : PyBytes_Check a = true
        · cases a <;> simp [PyBytes_Check] at ha
          rename_i b
          exact ⟨b, fl, w, hr, hw⟩
        · obtain ⟨e, he, _⟩ := hbadbytes a fl hr (by simpa using ha)
          rw [he] at hout
          cases hout
    · have hr : ∀ a fl : PyObj, r ≠ .tuple (.cons a (.cons fl .nil)) :=
        fun a fl h => hp ⟨a, fl, h⟩
      rw [notpair hr] at hout
      cases hout
  · intro hr
    rw [notpair hr]
    exact ⟨_, rfl, rfl, rfl⟩

/-- C15 at a concrete connection: a well-formed pair is accepted with its
bytes and flag word; a list of two items and a triple fail with "Expected
return of (bytes, flags)"; a negative flag word and the flag word 2^32 fail
with the bad-flags message; a pair whose first item is a text fails with an
encoding error. -/
theorem c15_encode_value_result_validated_witness :
    (pycbc_tc_encode_value envBits connValues (.int 0) (some (.int 4))).result
      = .ok ⟨.bytes [9], [9], 7⟩ ∧
    (∃ e, (pycbc_tc_encode_value envBits connValues (.int 1) (some (.int 4))).result
        = .error e ∧
      e.kind? = some .ENCODING ∧ e.msg? = some "Expected return of (bytes, flags)") ∧
    (∃ e, (pycbc_tc_encode_value envBits connValues (.int 2) (some (.int 4))).result
        = .error e ∧
      e.kind? = some .ENCODING ∧ e.msg? = some "Expected return of (bytes, flags)") ∧
    (∃ e, (pycbc_tc_encode_value envBits connValues (.int 3) (some (.int 4))).result
        = .error e ∧
      e.kind? = some .ENCODING ∧
      e.msg? = some ("Transcoder.encode_value() " ++ "returned a bad value for flags")) ∧
    (∃ e, (pycbc_tc_encode_value envBits connValues (.int 4) (some (.int 4))).result
        = .error e ∧
      e.kind? = some .ENCODING ∧
      e.msg? = some ("Transcoder.encode_value() " ++ "returned a bad value for flags")) ∧
    (∃ e, (pycbc_tc_encode_value envBits connValues (.int 5) (some (.int 4))).result
        = .error e ∧
      e.kind? = some .ENCODING) :=
  ⟨(c15_encode_value_result_validated envBits connValues tcValues rfl (.int 0) (.int 4)
      _ _ rfl rfl).2.1 [9] (.int 7) 7 rfl (by decide),
   (c15_encode_value_result_validated envBits connValues tcValues rfl (.int 1) (.int 4)
      _ _ rfl rfl).2.2.1 (fun _ _ h => nomatch h),
   (c15_encode_value_result_validated envBits connValues tcValues rfl (.int 2) (.int 4)
      _ _ rfl rfl).2.2.1 (fun _ _ h => nomatch h),
   (c15_encode_value_result_validated envBits connValues tcValues rfl (.int 3) (.int 4)
      _ _ rfl rfl).2.2.2.1 _ _ rfl (by decide),
   (c15_encode_value_result_validated envBits connValues tcValues rfl (.int 4) (.int 4)
      _ _ rfl rfl).2.2.2.1 _ _ rfl (by decide),
   (c15_encode_value_result_validated envBits connValues tcValues rfl (.int 5) (.int 4)
      _ _ rfl rfl).2.2.2.2 _ _ rfl rfl⟩

/-- The transcoder path of `pycbc_tc_decode_key` when the method exists and
returns `r`. -/
theorem decode_key_tc_returned (E : Env) (conn : Connection) (tc : Transcoder)
    (htc : conn.tc = some tc) (hpt : conn.data_passthrough = false)
    (bs : List Nat) (r : PyObj) (meth : List PyObj → Except PyObj PyObj)
    (hget : tc.getattr E.pycbc_helpers.tcname_decode_key = some meth)
    (hcall : meth [.bytes bs] = .ok r) :
    pycbc_tc_decode_key E conn bs =
      if r.hashable = true then
        ⟨[.tc_method E.pycbc_helpers.tcname_decode_key [.bytes bs]], .ok r⟩
      else
        ⟨[.tc_method E.pycbc_helpers.tcname_decode_key [.bytes bs]],
          .error (PYCBC_EXC_WRAP_KEY .ENCODING 0
            "Transcoder.decode_key must return a hashable object" r)⟩ := by
  unfold pycbc_tc_decode_key
  simp only [htc, hpt, do_call_tc, tc_args, strlookup, hget, hcall, decode_key_hash_check]
  rfl

/-- Whatever `pycbc_tc_decode_key` returns is hashable. -/
theorem decode_key_ok_hashable (E : Env) (conn : Connection) (bs : List Nat) (r : PyObj)
    (h : (pycbc_tc_decode_key E conn bs).result = .ok r) : r.hashable = true := by
  unfold pycbc_tc_decode_key at h
  cases hp : conn.data_passthrough with
  | true =>
    simp only [hp, if_true, decode_key_hash_check, PyObj.hashable, Res.ok.injEq] at h
    subst h
    rfl
  | false =>
    simp only [hp] at h
    cases ht : conn.tc with
    | none =>
      simp only [ht, Bool.false_eq_true, if_false] at h
      rw [decode_common_utf8 E _ _ (Nat.and_self _), convert_to_string_utf8_only] at h
      cases hd : utf8Decode bs with
      | none => simp [hd] at h
      | some s =>
        simp only [hd, Res.ok.injEq] at h
        subst h
        rfl
    | some tc =>
      simp only [ht, Bool.false_eq_true, if_false] at h
      cases hr : (do_call_tc E tc (.bytes bs) Option.none .DECODE_KEY).result with
      | crash => simp [hr] at h
      | error e => simp [hr] at h
      | ok pobj =>
        simp only [hr, decode_key_hash_check] at h
        by_cases hh : pobj.hashable = true
        · simp only [hh, if_true, Res.ok.injEq] at h
          subst h
          exact hh
        · simp [hh] at h

/-- C16: decoded keys are always hashable.  For every connection
configuration and every byte sequence, if `decode_key` succeeds then the
value it returns is hashable.  With a transcoder attached and passthrough
off, whenever the transcoder method `decode_key`, called on the bytes,
returns a value `r`: `decode_key` succeeds if and only if `r` is hashable, it
then returns `r` itself, and an unhashable `r` fails with the encoding error
"Transcoder.decode_key must return a hashable object", `r` attached. -/
theorem c16_decoded_keys_hashable (E : Env) (conn : Connection) (bs : List Nat) :
    (∀ r : PyObj, (pycbc_tc_decode_key E conn bs).result = .ok r → r.hashable = true) ∧
    (∀ (tc : Transcoder) (meth : List PyObj → Except PyObj PyObj) (r : PyObj),
      conn.tc = some tc → conn.data_passthrough = false →
      tc.getattr E.pycbc_helpers.tcname_decode_key = some meth →
      meth [.bytes bs] = .ok r →
      ((∃ out, (pycbc_tc_decode_key E conn bs).result = .ok out) ↔ r.hashable = true) ∧
      (r.hashable = true → (pycbc_tc_decode_key E conn bs).result = .ok r) ∧
      (r.hashable = false →
        ∃ e, (pycbc_tc_decode_key E conn bs).result = .error e ∧
          e.kind? = some .ENCODING ∧
          e.msg? = some "Transcoder.decode_key must return a hashable object" ∧
          e.attached = [r])) := by
  refine ⟨decode_key_ok_hashable E conn bs, ?_⟩
  intro tc meth r htc hpt hget hcall
  rw [decode_key_tc_returned E conn tc htc hpt bs r meth hget hcall]
  by_cases hh : r.hashable = true
  · rw [if_pos hh]
    refine ⟨⟨fun _ => hh, fun _ => ⟨_, rfl⟩⟩, fun _ => rfl, fun hf => ?_⟩
    rw [hh] at hf
    cases hf
  · rw [if_neg hh]
    refine ⟨⟨fun ⟨_, h⟩ => (nomatch h), fun h => absurd h hh⟩, fun h => absurd h hh,
      fun _ => ⟨_, rfl, rfl, rfl, rfl⟩⟩

/-- C16 at a concrete connection: for the byte 6B the transcoder returns the
text "k", which is accepted; for the byte 6C it returns a list, which is
rejected with the list attached. -/
theorem c16_decoded_keys_hashable_witness :
    (pycbc_tc_decode_key envBits connKeys [0x6B]).result = .ok (.unicode "k") ∧
    (∃ e, (pycbc_tc_decode_key envBits connKeys [0x6C]).result = .error e ∧
      e.kind? = some .ENCODING ∧
      e.msg? = some "Transcoder.decode_key must return a hashable object" ∧
      e.attached = [.list (.cons (.int 1) .nil)]) ∧
    (∀ r : PyObj, (pycbc_tc_decode_key envBits connPlain [0x6B]).result = .ok r →
      r.hashable = true) :=
  ⟨((c16_decoded_keys_hashable envBits connKeys [0x6B]).2 tcKeys _ (.unicode "k")
      rfl rfl rfl rfl).2.1 rfl,
   ((c16_decoded_keys_hashable envBits connKeys [0x6C]).2 tcKeys _
      (.list (.cons (.int 1) .nil)) rfl rfl rfl rfl).2.2 rfl,
   (c16_decoded_keys_hashable envBits connPlain [0x6B]).1⟩

/-- A missing method: `do_call_tc` raises the encoding error "Couldn't find
transcoder method" with the transcoder object attached, and calls nothing. -/
theorem do_call_tc_missing (E : Env) (tc : Transcoder) (obj : PyObj) (flags : Option PyObj)
    (mode : TcMode) (args : List PyObj) (hargs : tc_args obj flags mode = some args)
    (hget : tc.getattr (strlookup E.pycbc_helpers mode) = none) :
    do_call_tc E tc obj flags mode =
      ⟨[], .error (PYCBC_EXC_WRAP_OBJ .ENCODING 0 "Couldn't find transcoder method"
        tc.self)⟩ := by
  unfold do_call_tc
  simp only [hargs, hget]

/-- A raising method: `do_call_tc` leaves the exception the method raised
pending as it is. -/
theorem do_call_tc_raises (E : Env) (tc : Transcoder) (obj : PyObj) (flags : Option PyObj)
    (mode : TcMode) (args : List PyObj) (meth : List PyObj → Except PyObj PyObj)
    (exc : PyObj) (hargs : tc_args obj flags mode = some args)
    (hget : tc.getattr (strlookup E.pycbc_helpers mode) = some meth)
    (hcall : meth args = .error exc) :
    do_call_tc E tc obj flags mode =
      ⟨[.tc_method (strlookup E.pycbc_helpers mode) args], .error (.python exc)⟩ := by
  unfold do_call_tc
  simp only [hargs, hget, hcall]

/-- Each of the four operations fails with the error of `do_call_tc` when
`do_call_tc` fails. -/
theorem tc_failure_propagates (E : Env) (conn : Connection) (tc : Transcoder)
    (htc : conn.tc = some tc) :
    (∀ (k : PyObj) (out : Out PyObj) (e : PyErr),
      do_call_tc E tc k Option.none .ENCODE_KEY = out → out.result = .error e →
      pycbc_tc_encode_key E conn k = ⟨out.events, .error e⟩) ∧
    (∀ (v hint : PyObj) (out : Out PyObj) (e : PyErr),
      do_call_tc E tc v (some hint) .ENCODE_VALUE = out → out.result = .error e →
      pycbc_tc_encode_value E conn v (some hint) = ⟨out.events, .error e⟩) ∧
    (conn.data_passthrough = false →
      ∀ (bs : List Nat) (out : Out PyObj) (e : PyErr),
      do_call_tc E tc (.bytes bs) Option.none .DECODE_KEY = out → out.result = .error e →
      pycbc_tc_decode_key E conn bs = ⟨out.events, .error e⟩) ∧
    (conn.data_passthrough = false →
      ∀ (bs : List Nat) (w : Nat) (out : Out PyObj) (e : PyErr),
      do_call_tc E tc (.bytes bs) (some (.int w)) .DECODE_VALUE = out →
      out.result = .error e →
      pycbc_tc_decode_value E conn bs w = ⟨out.events, .error e⟩) := by
  refine ⟨?_, ?_, ?_, ?_⟩
  · intro k out e ho he
    subst ho
    unfold pycbc_tc_encode_key
    simp only [htc, he]
  · intro v hint out e ho he
    subst ho
    unfold pycbc_tc_encode_value
    simp only [htc, he]
  · intro hpt bs out e ho he
    subst ho
    unfold pycbc_tc_decode_key
    simp only [htc, hpt, he, Bool.false_eq_true, if_false]
  · intro hpt bs w out e ho he
    subst ho
    unfold pycbc_tc_decode_value
    simp only [htc, hpt, pycbc_IntFromUL]
    rw [← he]

/-- C17, the claim as stated fails.  With a transcoder whose methods raise,
`encode_key` fails with the very exception the method raised, which is not an
error of kind encoding and has no input attached; with a transcoder that
lacks the method, `encode_key` fails with an encoding error to which the
transcoder object is attached, and the key is not.  The same holds for
`decode_value`. -/
theorem c17_counterexample :
    (pycbc_tc_encode_key envBits connRaising (.unicode "k")).result
      = .error (.python (.object 41 true)) ∧
    (PyErr.python (.object 41 true)).kind? ≠ some .ENCODING ∧
    (pycbc_tc_decode_value envBits connRaising [0x6B] 4).result
      = .error (.python (.object 41 true)) ∧
    (pycbc_tc_encode_key envBits connEmpty (.unicode "k")).result
      = .error (.pycbc .ENCODING 0 "Couldn't find transcoder method" Option.none
          (some (.object 80 true))) ∧
    (PyObj.unicode "k") ∉
      (PyErr.pycbc .ENCODING 0 "Couldn't find transcoder method" Option.none
          (some (.object 80 true))).attached := by
  decide

/-- C17, amended: with a transcoder attached (and passthrough off for the two
decodes), for each of `encode_key`, `encode_value`, `decode_key` and
`decode_value`: when the transcoder lacks the method, the operation fails
with the encoding error "Couldn't find transcoder method", the transcoder
object attached, and calls nothing; when the method raises, the operation
fails, so the failure is never turned into a success. -/
theorem c17_transcoder_failures_fail (E : Env) (conn : Connection) (tc : Transcoder)
    (htc : conn.tc = some tc) :
    ((∀ k : PyObj, tc.getattr E.pycbc_helpers.tcname_encode_key = none →
        pycbc_tc_encode_key E conn k =
          ⟨[], .error (.pycbc .ENCODING 0 "Couldn't find transcoder method" Option.none
            (some tc.self))⟩) ∧
     (∀ v hint : PyObj, tc.getattr E.pycbc_helpers.tcname_encode_value = none →
        pycbc_tc_encode_value E conn v (some hint) =
          ⟨[], .error (.pycbc .ENCODING 0 "Couldn't find transcoder method" Option.none
            (some tc.self))⟩) ∧
     (conn.data_passthrough = false → ∀ bs : List Nat,
        tc.getattr E.pycbc_helpers.tcname_decode_key = none →
        pycbc_tc_decode_key E conn bs =
          ⟨[], .error (.pycbc .ENCODING 0 "Couldn't find transcoder method" Option.none
            (some tc.self))⟩) ∧
     (conn.data_passthrough = false → ∀ (bs : List Nat) (w : Nat),
        tc.getattr E.pycbc_helpers.tcname_decode_value = none →
        pycbc_tc_decode_value E conn bs w =
          ⟨[], .error (.pycbc .ENCODING 0 "Couldn't find transcoder method" Option.none
            (some tc.self))⟩)) ∧
    ((∀ (k : PyObj) (meth : List PyObj → Except PyObj PyObj) (exc : PyObj),
        tc.getattr E.pycbc_helpers.tcname_encode_key = some meth →
        meth [k] = .error exc →
        ∃ e, (pycbc_tc_encode_key E conn k).result = .error e) ∧
     (∀ (v hint : PyObj) (meth : List PyObj → Except PyObj PyObj) (exc : PyObj),
        tc.getattr E.pycbc_helpers.tcname_encode_value = some meth →
        meth [v, hint] = .error exc →
        ∃ e, (pycbc_tc_encode_value E conn v (some hint)).result = .error e) ∧
     (conn.data_passthrough = false →
        ∀ (bs : List Nat) (meth : List PyObj → Except PyObj PyObj) (exc : PyObj),
        tc.getattr E.pycbc_helpers.tcname_decode_key = some meth →
        meth [.bytes bs] = .error exc →
        ∃ e, (pycbc_tc_decode_key E conn bs).result = .error e) ∧
     (conn.data_passthrough = false →
        ∀ (bs : List Nat) (w : Nat) (meth : List PyObj → Except PyObj PyObj) (exc : PyObj),
        tc.getattr E.pycbc_helpers.tcname_decode_value = some meth →
        meth [.bytes bs, .int w] = .error exc →
        ∃ e, (pycbc_tc_decode_value E conn bs w).result = .error e)) := by
  obtain ⟨pk, pv, pdk, pdv⟩ := tc_failure_propagates E conn tc htc
  refine ⟨⟨?_, ?_, ?_, ?_⟩, ⟨?_, ?_, ?_, ?_⟩⟩
  · intro k hget
    have h := do_call_tc_missing E tc k Option.none .ENCODE_KEY [k] rfl hget
    exact pk k _ _ h rfl
  · intro v hint hget
    have h := do_call_tc_missing E tc v (some hint) .ENCODE_VALUE [v, hint] rfl hget
    exact pv v hint _ _ h rfl
  · intro hpt bs hget
    have h := do_call_tc_missing E tc (.bytes bs) Option.none .DECODE_KEY [.bytes bs] rfl hget
    exact pdk hpt bs _ _ h rfl
  · intro hpt bs w hget
    have h := do_call_tc_missing E tc (.bytes bs) (some (.int w)) .DECODE_VALUE
      [.bytes bs, .int w] rfl hget
    exact pdv hpt bs w _ _ h rfl
  · intro k meth exc hget hcall
    have h := do_call_tc_raises E tc k Option.none .ENCODE_KEY [k] meth exc rfl hget hcall
    exact ⟨_, congrArg Out.result (pk k _ _ h rfl)⟩
  · intro v hint meth exc hget hcall
    have h := do_call_tc_raises E tc v (some hint) .ENCODE_VALUE [v, hint] meth exc rfl
      hget hcall
    exact ⟨_, congrArg Out.result (pv v hint _ _ h rfl)⟩
  · intro hpt bs meth exc hget hcall
    have h := do_call_tc_raises E tc (.bytes bs) Option.none .DECODE_KEY [.bytes bs] meth exc
      rfl hget hcall
    exact ⟨_, congrArg Out.result (pdk hpt bs _ _ h rfl)⟩
  · intro hpt bs w meth exc hget hcall
    have h := do_call_tc_raises E tc (.bytes bs) (some (.int w)) .DECODE_VALUE
      [.bytes bs, .int w] meth exc rfl hget hcall
    exact ⟨_, congrArg Out.result (pdv hpt bs w _ _ h rfl)⟩

/-- C17 amended, at concrete connections: with a transcoder that lacks every
method, `encode_value` and `decode_key` fail with the encoding error and the
transcoder object attached; with a transcoder whose methods raise,
`encode_value` and `decode_key` fail. -/
theorem c17_transcoder_failures_fail_witness :
    pycbc_tc_encode_value envBits connEmpty (.unicode "v") (some (.int 4)) =
      ⟨[], .error (.pycbc .ENCODING 0 "Couldn't find transcoder method" Option.none
        (some (.object 80 true)))⟩ ∧
    pycbc_tc_decode_key envBits connEmpty [0x6B] =
      ⟨[], .error (.pycbc .ENCODING 0 "Couldn't find transcoder method" Option.none
        (some (.object 80 true)))⟩ ∧
    (∃ e, (pycbc_tc_encode_value envBits connRaising (.unicode "v")
      (some (.int 4))).result = .error e) ∧
    (∃ e, (pycbc_tc_decode_key envBits connRaising [0x6B]).result = .error e) :=
  ⟨(c17_transcoder_failures_fail envBits connEmpty tcEmpty rfl).1.2.1
      (.unicode "v") (.int 4) rfl,
   (c17_transcoder_failures_fail envBits connEmpty tcEmpty rfl).1.2.2.1 rfl [0x6B] rfl,
   (c17_transcoder_failures_fail envBits connRaising tcRaising rfl).2.2.1
      (.unicode "v") (.int 4) _ (.object 41 true) rfl rfl,
   (c17_transcoder_failures_fail envBits connRaising tcRaising rfl).2.2.2.1 rfl
      [0x6B] _ (.object 41 true) rfl rfl⟩

theorem encode_select_eq_precedence (E : Env) (f : Nat) :
    encode_select E f = precedence_select E f := by
  unfold encode_select precedence_select
  simp only [List.find?, Env.carries, Env.fmt]
  by_cases h1 : f &&& E.PYCBC_FMT_UTF8 = E.PYCBC_FMT_UTF8
  · have b1 : (f &&& E.PYCBC_FMT_UTF8 == E.PYCBC_FMT_UTF8) = true := by simp [h1]
    rw [if_pos h1]
    simp only [b1]
  · have b1 : (f &&& E.PYCBC_FMT_UTF8 == E.PYCBC_FMT_UTF8) = false := by simp [h1]
    by_cases h2 : f &&& E.PYCBC_FMT_BYTES = E.PYCBC_FMT_BYTES
    · have b2 : (f &&& E.PYCBC_FMT_BYTES == E.PYCBC_FMT_BYTES) = true := by simp [h2]
      rw [if_neg h1, if_pos h2]
      simp only [b1, b2]
    · have b2 : (f &&& E.PYCBC_FMT_BYTES == E.PYCBC_FMT_BYTES) = false := by simp [h2]
      by_cases h3 : f &&& E.PYCBC_FMT_PICKLE = E.PYCBC_FMT_PICKLE
      · have b3 : (f &&& E.PYCBC_FMT_PICKLE == E.PYCBC_FMT_PICKLE) = true := by simp [h3]
        rw [if_neg h1, if_neg h2, if_pos h3]
        simp only [b1, b2, b3]
      · have b3 : (f &&& E.PYCBC_FMT_PICKLE == E.PYCBC_FMT_PICKLE) = false := by
          simp [h3]
        by_cases h4 : f &&& E.PYCBC_FMT_JSON = E.PYCBC_FMT_JSON
        · have b4 : (f &&& E.PYCBC_FMT_JSON == E.PYCBC_FMT_JSON) = true := by simp [h4]
          rw [if_neg h1, if_neg h2, if_neg h3, if_pos h4]
          simp only [b1, b2, b3, b4]
        · have b4 : (f &&& E.PYCBC_FMT_JSON == E.PYCBC_FMT_JSON) = false := by simp [h4]
          rw [if_neg h1, if_neg h2, if_neg h3, if_neg h4]
          simp only [b1, b2, b3, b4]

/-- C19: encode and decode select the same codec for the same flag word.  For
every flag word `f`, the branch `encode_common` takes on `f` and the branch
`decode_common` takes on the stored word `f & FMT_MASK` serve the same
format, and both are the first of Utf8, Bytes, Pickle, Json whose bits the
word carries; so an item encoded under a hint with several format bits or
with extra high bits is later decoded by the codec of the format that
encoded it.  The format constants are assumed to lie inside the mask. -/
theorem c19_encode_decode_same_codec (E : Env) (hmask : E.MaskCovers) (f : Nat) :
    decode_select E (f &&& E.PYCBC_FMT_MASK) = encode_select E f ∧
    encode_select E f = precedence_select E f ∧
    decode_select E (f &&& E.PYCBC_FMT_MASK) = precedence_select E (f &&& E.PYCBC_FMT_MASK) ∧
    (∀ o : PyObj, encode_common E o f = encode_codec E o (encode_select E f)) ∧
    (∀ buf : List Nat,
      decode_common E buf (f &&& E.PYCBC_FMT_MASK) = decode_codec E buf (encode_select E f)) := by
  have h1 : decode_select E (f &&& E.PYCBC_FMT_MASK) = encode_select E f := by
    rw [decode_select_eq_encode_select, encode_select_mask E hmask]
  refine ⟨h1, encode_select_eq_precedence E f, ?_, fun o => encode_common_eq_codec E o f, ?_⟩
  · rw [decode_select_eq_encode_select, encode_select_eq_precedence]
  · intro buf
    rw [decode_common_eq_codec, h1]

/-- C19 at a concrete build: the hint 0xABCD0006 carries the UTF8 and BYTES
bits and high bits; encoding selects Utf8, the stored word is 6, and decoding
the stored word selects Utf8 as well. -/
theorem c19_encode_decode_same_codec_witness :
    (decode_select envBits (0xABCD0006 &&& envBits.PYCBC_FMT_MASK)
      = encode_select envBits 0xABCD0006) ∧
    encode_select envBits 0xABCD0006 = some .Utf8 ∧
    0xABCD0006 &&& envBits.PYCBC_FMT_MASK = 6 ∧
    decode_select envBits 6 = some .Utf8 :=
  ⟨(c19_encode_decode_same_codec envBits envBits_maskCovers 0xABCD0006).1,
   by decide, by decide, by decide⟩

end Pycbc
